import Mathlib

/-!
Verification of the ConsensusWeaverAgent consensus engine.

This file shallowly embeds the parts of the repository that the
specification's testable properties talk about:

* `src/infrastructure/tools/retry_handler.py` (`RetryHandler.execute_with_retry`)
* `src/infrastructure/data/retry_handler.py` (`RetryHandler.execute_with_retry`)
* `src/infrastructure/tools/tool_manager.py` (`ToolManager.run_tool`,
  `ToolManager._execute_tool_internal`, `ToolManager.run_multiple_tools`)
* `src/core/analyzer/consensus_analyzer.py` and `consensus_analyzer_v2.py`
  (similarity matrix, consensus scores, key-point extraction and fallback)
* `src/infrastructure/data/unit_of_work.py`, `transaction_manager.py`,
  `data_validator.py`, `repositories/sqlite_repository.py`

Python exceptions are modelled with `Except`/`Option`, awaited coroutines as
plain function application, machine floats as real (or rational) numbers, and
wall-clock readings (`time.time()`, `datetime.now()`) as the constant `0`
respectively `""` — no claim below depends on an actual clock value.
-/

/-! ## Outcome of one Python call

An invocation of a fallible Python coroutine either returns a value, raises
`asyncio.TimeoutError`, or raises some other exception.  The tools retry
handler distinguishes exactly these three cases. -/

inductive PyOutcome (α : Type) where
  | ok (v : α)
  | timeoutExn (msg : String)
  | exn (msg : String)
deriving Repr, DecidableEq

/-! ## Tools retry handler

Embedding of `src/infrastructure/tools/retry_handler.py`.  The configuration
dataclass `RetryConfig` is defined in
`src/infrastructure/config/config_manager.py` (lines 66-73); delay fields are
kept for fidelity but no sleeping is modelled. -/

structure RetryConfig where
  enabled : Bool := true
  autoRetry : Bool := true
  maxRetries : Nat := 3
  retryDelay : Nat := 2
  retryOnTimeout : Bool := true
  retryOnError : Bool := true
  exponentialBackoff : Bool := false
deriving Repr, DecidableEq

/-- Embeds the `RetryResult` dataclass of the tools retry handler.  The
`total_time` field is wall-clock derived and is not modelled. -/
structure RetryResult (α : Type) where
  success : Bool
  attempts : Nat
  value : Option α := none
  error : Option String := none
deriving Repr, DecidableEq

namespace ToolsRetry

/-- Loop body of `RetryHandler.execute_with_retry` (enabled branch).  The
operation `op` gives the outcome of the `n`-th call of `func` and `ask` the
user's continue/abort answer after the `n`-th failed attempt (the
`_ask_user_retry` prompt used when `auto_retry` is off).  `fuel` is the number
of remaining loop iterations, i.e. `max_retries - current_attempt`; the
`attempt ≥ max_retries` test mirrors the source's explicit break. -/
def go (cfg : RetryConfig) (op : Nat → PyOutcome α) (ask : Nat → Bool) :
    Nat → Nat → Option String → RetryResult α
  | current, 0, last =>
      { success := false, attempts := current, value := none, error := last }
  | current, fuel + 1, _last =>
      let attempt := current + 1
      match op attempt with
      | .ok v =>
          { success := true, attempts := attempt, value := some v, error := none }
      | .timeoutExn m =>
          let msg := "超时错误: " ++ m
          if !cfg.retryOnTimeout then
            { success := false, attempts := attempt, value := none, error := some msg }
          else if cfg.maxRetries ≤ attempt then
            { success := false, attempts := attempt, value := none, error := some msg }
          else if cfg.autoRetry then
            go cfg op ask attempt fuel (some msg)
          else if ask attempt then
            go cfg op ask attempt fuel (some msg)
          else
            { success := false, attempts := attempt, value := none, error := some msg }
      | .exn m =>
          let msg := "执行错误: " ++ m
          if !cfg.retryOnError then
            { success := false, attempts := attempt, value := none, error := some msg }
          else if cfg.maxRetries ≤ attempt then
            { success := false, attempts := attempt, value := none, error := some msg }
          else if cfg.autoRetry then
            go cfg op ask attempt fuel (some msg)
          else if ask attempt then
            go cfg op ask attempt fuel (some msg)
          else
            { success := false, attempts := attempt, value := none, error := some msg }

/-- Embeds `RetryHandler.execute_with_retry` of
`src/infrastructure/tools/retry_handler.py`.  When the policy is disabled the
source awaits `func` outside of any `try` block, so an exception raised there
propagates to the caller; this is the `Except.error` case.  When enabled,
every exception of `func` is caught inside the loop and the method always
returns a `RetryResult`. -/
def executeWithRetry (cfg : RetryConfig) (op : Nat → PyOutcome α) (ask : Nat → Bool) :
    Except String (RetryResult α) :=
  if !cfg.enabled then
    match op 1 with
    | .ok v => .ok { success := true, attempts := 1, value := some v, error := none }
    | .timeoutExn m => .error m
    | .exn m => .error m
  else
    .ok (go cfg op ask 0 cfg.maxRetries none)

end ToolsRetry

/-! ## Data retry handler

Embedding of `src/infrastructure/data/retry_handler.py`.  This handler has no
result object: it returns the operation's value or re-raises the last
exception once `max_retries + 1` executions have failed (its loop is
`for attempt in range(self.max_retries + 1)`). -/

namespace DataRetry

/-- Loop of the data `RetryHandler.execute_with_retry`: attempt indices run
from `0` to `maxRetries`; an exception at `attempt < maxRetries` is retried,
an exception at `attempt = maxRetries` is re-raised.  `fuel` is
`maxRetries + 1 - attempt`; the fuel-0 branch is unreachable from
`executeWithRetry`. -/
def go (maxRetries : Nat) (op : Nat → Except String α) : Nat → Nat → Except String α
  | _, 0 => .error ""
  | attempt, fuel + 1 =>
      match op attempt with
      | .ok v => .ok v
      | .error e =>
          if attempt < maxRetries then go maxRetries op (attempt + 1) fuel
          else .error e

/-- Embeds `RetryHandler.execute_with_retry` of
`src/infrastructure/data/retry_handler.py`: the value of the first successful
execution, or the exception of execution number `maxRetries + 1`. -/
def executeWithRetry (maxRetries : Nat) (op : Nat → Except String α) :
    Except String α :=
  go maxRetries op 0 (maxRetries + 1)

end DataRetry

/-! ## JSON values and `json.loads`

The extractor in `src/core/analyzer/consensus_analyzer.py` parses model
output with Python's `json.loads`.  We embed the JSON data model and a
recursive-descent parser for the standard JSON grammar accepted by
`json.loads` (objects, arrays, strings with escapes, numbers, `true`,
`false`, `null`; numbers are idealised as rationals, and the non-standard
`NaN`/`Infinity` extensions as well as surrogate-pair combining for `\uXXXX`
escapes are not modelled).  A failed parse models a raised
`json.JSONDecodeError`. -/

inductive Json where
  | null
  | bool (b : Bool)
  | num (q : ℚ)
  | str (s : String)
  | arr (elems : List Json)
  | obj (members : List (String × Json))
deriving Repr

namespace PyJson

/-- JSON insignificant whitespace, as in `json.decoder` (space, tab, newline,
carriage return). -/
def isJsonWs (c : Char) : Bool :=
  c = ' ' || c = '\t' || c = '\n' || c = '\r'

def skipWs : List Char → List Char
  | [] => []
  | c :: cs => if isJsonWs c then skipWs cs else c :: cs

def hexVal (c : Char) : Option Nat :=
  if '0' ≤ c ∧ c ≤ '9' then some (c.toNat - '0'.toNat)
  else if 'a' ≤ c ∧ c ≤ 'f' then some (c.toNat - 'a'.toNat + 10)
  else if 'A' ≤ c ∧ c ≤ 'F' then some (c.toNat - 'A'.toNat + 10)
  else none

/-- Body of a JSON string after the opening quote: returns the decoded
characters and the input past the closing quote.  Unescaped control
characters are rejected, as in strict-mode `json.loads`. -/
def stringBody : List Char → List Char → Option (List Char × List Char)
  | [], _ => none
  | '"' :: rest, acc => some (acc.reverse, rest)
  | '\\' :: 'u' :: h1 :: h2 :: h3 :: h4 :: rest, acc =>
      match hexVal h1, hexVal h2, hexVal h3, hexVal h4 with
      | some a, some b, some c, some d =>
          stringBody rest (Char.ofNat (((a * 16 + b) * 16 + c) * 16 + d) :: acc)
      | _, _, _, _ => none
  | '\\' :: e :: rest, acc =>
      if e = '"' then stringBody rest ('"' :: acc)
      else if e = '\\' then stringBody rest ('\\' :: acc)
      else if e = '/' then stringBody rest ('/' :: acc)
      else if e = 'b' then stringBody rest ('\x08' :: acc)
      else if e = 'f' then stringBody rest ('\x0c' :: acc)
      else if e = 'n' then stringBody rest ('\n' :: acc)
      else if e = 'r' then stringBody rest ('\r' :: acc)
      else if e = 't' then stringBody rest ('\t' :: acc)
      else none
  | c :: rest, acc =>
      if c.toNat < 32 then none else stringBody rest (c :: acc)

def digitsToNat (ds : List Char) : Nat :=
  ds.foldl (fun acc c => acc * 10 + (c.toNat - '0'.toNat)) 0

/-- Powers of ten as rationals, by explicit recursion so that concrete
parses reduce definitionally. -/
def pow10 : Nat → ℚ
  | 0 => 1
  | n + 1 => 10 * pow10 n

def spanDigits : List Char → List Char × List Char
  | [] => ([], [])
  | c :: cs =>
      if c.isDigit then
        let (ds, rest) := spanDigits cs
        (c :: ds, rest)
      else ([], c :: cs)

/-- JSON number grammar: `-? (0 | [1-9][0-9]*) (\. [0-9]+)? ([eE][+-]?[0-9]+)?`,
with the value idealised as a rational. -/
def parseNumber (cs : List Char) : Option (ℚ × List Char) :=
  let (neg, cs1) := match cs with
    | '-' :: rest => (true, rest)
    | _ => (false, cs)
  match spanDigits cs1 with
  | ([], _) => none
  | (intDs, rest1) =>
      if intDs.length > 1 ∧ intDs.headD '0' = '0' then none
      else
        let (fracDs, rest2) := match rest1 with
          | '.' :: r => spanDigits r
          | _ => ([], rest1)
        if (match rest1 with | '.' :: _ => fracDs.isEmpty | _ => false) then none
        else
          let (expOk, expNeg, expDs, rest3) : Bool × Bool × List Char × List Char :=
            match rest2 with
            | 'e' :: '+' :: r => let (ds, r') := spanDigits r; (!ds.isEmpty, false, ds, r')
            | 'e' :: '-' :: r => let (ds, r') := spanDigits r; (!ds.isEmpty, true, ds, r')
            | 'e' :: r => let (ds, r') := spanDigits r; (!ds.isEmpty, false, ds, r')
            | 'E' :: '+' :: r => let (ds, r') := spanDigits r; (!ds.isEmpty, false, ds, r')
            | 'E' :: '-' :: r => let (ds, r') := spanDigits r; (!ds.isEmpty, true, ds, r')
            | 'E' :: r => let (ds, r') := spanDigits r; (!ds.isEmpty, false, ds, r')
            | _ => (true, false, [], rest2)
          if !expOk then none
          else
            let mantissa : ℚ := (digitsToNat (intDs ++ fracDs) : ℚ) / pow10 fracDs.length
            let signed : ℚ := if neg then -mantissa else mantissa
            let scaled : ℚ :=
              if expNeg then signed / pow10 (digitsToNat expDs)
              else signed * pow10 (digitsToNat expDs)
            some (scaled, rest3)

mutual

/-- One JSON value, fuel-bounded recursive descent. -/
def parseValue : Nat → List Char → Option (Json × List Char)
  | 0, _ => none
  | fuel + 1, cs =>
      match cs with
      | 'n' :: 'u' :: 'l' :: 'l' :: rest => some (.null, rest)
      | 't' :: 'r' :: 'u' :: 'e' :: rest => some (.bool true, rest)
      | 'f' :: 'a' :: 'l' :: 's' :: 'e' :: rest => some (.bool false, rest)
      | '"' :: rest =>
          match stringBody rest [] with
          | some (s, r) => some (.str (String.mk s), r)
          | none => none
      | '[' :: rest =>
          match skipWs rest with
          | ']' :: r2 => some (.arr [], r2)
          | r1 => parseElements fuel r1 []
      | '\x7b' :: rest =>
          match skipWs rest with
          | '\x7d' :: r2 => some (.obj [], r2)
          | r1 => parseMembers fuel r1 []
      | _ =>
          match parseNumber cs with
          | some (q, r) => some (.num q, r)
          | none => none

/-- Comma-separated array elements up to the closing bracket. -/
def parseElements : Nat → List Char → List Json → Option (Json × List Char)
  | 0, _, _ => none
  | fuel + 1, cs, acc =>
      match parseValue fuel cs with
      | none => none
      | some (v, rest) =>
          match skipWs rest with
          | ',' :: r2 => parseElements fuel (skipWs r2) (v :: acc)
          | ']' :: r2 => some (.arr (v :: acc).reverse, r2)
          | _ => none

/-- Comma-separated `"key": value` object members up to the closing brace. -/
def parseMembers : Nat → List Char → List (String × Json) → Option (Json × List Char)
  | 0, _, _ => none
  | fuel + 1, cs, acc =>
      match cs with
      | '"' :: rest =>
          match stringBody rest [] with
          | none => none
          | some (k, r1) =>
              match skipWs r1 with
              | ':' :: r2 =>
                  match parseValue fuel (skipWs r2) with
                  | none => none
                  | some (v, r3) =>
                      match skipWs r3 with
                      | ',' :: r4 => parseMembers fuel (skipWs r4) ((String.mk k, v) :: acc)
                      | '\x7d' :: r4 => some (.obj ((String.mk k, v) :: acc).reverse, r4)
                      | _ => none
              | _ => none
      | _ => none

end

/-- Embeds `json.loads`: one JSON value, with only whitespace allowed before
and after it ("Extra data" otherwise); `none` models `JSONDecodeError`. -/
def jsonLoads (s : String) : Option Json :=
  let cs := skipWs s.data
  match parseValue (2 * s.data.length + 2) cs with
  | some (v, rest) => if (skipWs rest).isEmpty then some v else none
  | none => none

end PyJson

/-! ## Python text primitives

Character-level embeddings of the Python string operations the analyzer
uses (`str.lower`, `str.split`, `str.strip`, `str.isalpha`, slicing,
`startswith`/`endswith`, single-character `replace`).  Python's versions are
Unicode-aware; tokens of interest here are ASCII and the model lowercases
and classifies ASCII only. -/

namespace PyStr

def pyLowerChar (c : Char) : Char :=
  if 'A' ≤ c ∧ c ≤ 'Z' then Char.ofNat (c.toNat + 32) else c

def pyLower (s : String) : String :=
  String.mk (s.data.map pyLowerChar)

/-- Whitespace for `str.split()` and `str.strip()` (ASCII part). -/
def isPyWs (c : Char) : Bool :=
  c = ' ' || c = '\t' || c = '\n' || c = '\r' || c = '\x0b' || c = '\x0c'

def splitWsAux : List Char → List Char → List String
  | [], cur => if cur.isEmpty then [] else [String.mk cur.reverse]
  | c :: cs, cur =>
      if isPyWs c then
        if cur.isEmpty then splitWsAux cs []
        else String.mk cur.reverse :: splitWsAux cs []
      else splitWsAux cs (c :: cur)

/-- Embeds `str.split()` with no argument: runs of whitespace separate the
words, no empty words are produced. -/
def pySplit (s : String) : List String :=
  splitWsAux s.data []

def dropWsLeft : List Char → List Char
  | [] => []
  | c :: cs => if isPyWs c then dropWsLeft cs else c :: cs

/-- Embeds `str.strip()` with no argument. -/
def pyStrip (s : String) : String :=
  String.mk ((dropWsLeft (dropWsLeft s.data).reverse).reverse)

/-- Embeds `str.isalpha` (ASCII model: nonempty and all letters). -/
def pyIsAlphaStr (s : String) : Bool :=
  !s.data.isEmpty && s.data.all Char.isAlpha

def isPrefixList : List Char → List Char → Bool
  | [], _ => true
  | _ :: _, [] => false
  | a :: as, b :: bs => a = b && isPrefixList as bs

def pyStartsWith (s pre : String) : Bool :=
  isPrefixList pre.data s.data

def pyEndsWith (s suf : String) : Bool :=
  isPrefixList suf.data.reverse s.data.reverse

/-- Embeds the slice `s[n:]` (by characters, as in Python). -/
def pyDrop (s : String) (n : Nat) : String :=
  String.mk (s.data.drop n)

/-- Embeds the slice `s[:-n]` for `0 < n ≤ len(s)` (by characters). -/
def pyDropRight (s : String) (n : Nat) : String :=
  String.mk (s.data.take (s.data.length - n))

/-- Embeds the slice `s[:n]` (by characters). -/
def pyTake (s : String) (n : Nat) : String :=
  String.mk (s.data.take n)

end PyStr

/-! ## ConsensusAnalyzer (v1) key-point extraction

Embedding of `_extract_key_points`, `_simple_key_point_extraction`,
`_identify_differences` and `_preprocess_text` of
`src/core/analyzer/consensus_analyzer.py`.  The generative model is an
abstract collaborator: its response is a parameter, `none` standing for a
raised exception inside `generate_response` (absorbed by the enclosing
`except`).  `_preprocess_text` is modelled on its deterministic fallback
path: NLTK `word_tokenize` degraded to `str.lower().split()`, the stop-word
set being the module's own `DEFAULT_STOP_WORDS` constant (lines 53-233), and
lemmatisation the identity (the `SimpleLemmatizer` fallback object). -/

namespace AnalyzerV1

/-- The `DEFAULT_STOP_WORDS` constant of `consensus_analyzer.py`, verbatim
(apostrophes written as `\x27`). -/
def defaultStopWords : List String :=
  ["i", "me", "my", "myself", "we", "our", "ours", "ourselves", "you",
   "you\x27re", "you\x27ve", "you\x27ll", "you\x27d", "your", "yours",
   "yourself", "yourselves", "he", "him", "his", "himself", "she",
   "she\x27s", "her", "hers", "herself", "it", "it\x27s", "its", "itself",
   "they", "them", "their", "theirs", "themselves", "what", "which", "who",
   "whom", "this", "that", "that\x27ll", "these", "those", "am", "is",
   "are", "was", "were", "be", "been", "being", "have", "has", "had",
   "having", "do", "does", "did", "doing", "a", "an", "the", "and", "but",
   "if", "or", "because", "as", "until", "while", "of", "at", "by", "for",
   "with", "about", "against", "between", "into", "through", "during",
   "before", "after", "above", "below", "to", "from", "up", "down", "in",
   "out", "on", "off", "over", "under", "again", "further", "then", "once",
   "here", "there", "when", "where", "why", "how", "all", "any", "both",
   "each", "few", "more", "most", "other", "some", "such", "no", "nor",
   "not", "only", "own", "same", "so", "than", "too", "very", "s", "t",
   "can", "will", "just", "don", "don\x27t", "should", "should\x27ve",
   "now", "d", "ll", "m", "o", "re", "ve", "y", "ain", "aren",
   "aren\x27t", "couldn", "couldn\x27t", "didn", "didn\x27t", "doesn",
   "doesn\x27t", "hadn", "hadn\x27t", "hasn", "hasn\x27t", "haven",
   "haven\x27t", "isn", "isn\x27t", "ma", "mightn", "mightn\x27t",
   "mustn", "mustn\x27t", "needn", "needn\x27t", "shan", "shan\x27t",
   "shouldn", "shouldn\x27t", "wasn", "wasn\x27t", "weren", "weren\x27t",
   "won", "won\x27t", "wouldn", "wouldn\x27t"]

/-- Embeds `_preprocess_text` (deterministic fallback path): lowercase,
whitespace-split, keep alphabetic non-stop-words, identity lemmatisation. -/
def preprocessText (text : String) : List String :=
  (PyStr.pySplit (PyStr.pyLower text)).filter
    (fun w => PyStr.pyIsAlphaStr w && !defaultStopWords.contains w)

/-- One entry of the `tool_results` list handed to the analyzer: the
`tool_name` / `success` / `answer` keys the analyzer reads. -/
structure RDict where
  toolName : String
  success : Bool
  answer : String
deriving Repr, DecidableEq

def dedupAux : List String → List String → List String
  | [], _ => []
  | w :: ws, seen =>
      if seen.contains w then dedupAux ws seen
      else w :: dedupAux ws (w :: seen)

/-- Distinct words in first-occurrence order (a `Counter`'s key order). -/
def dedupKeepFirst (ws : List String) : List String :=
  dedupAux ws []

def insertByCountDesc (cnt : String → Nat) (w : String) : List String → List String
  | [] => [w]
  | x :: xs => if cnt x ≤ cnt w then w :: x :: xs else x :: insertByCountDesc cnt w xs

/-- Embeds `Counter(all_words).most_common(n)` (keys only): words sorted by
frequency descending, ties kept in first-encountered order. -/
def mostCommon (ws : List String) (n : Nat) : List String :=
  ((dedupKeepFirst ws).foldr (insertByCountDesc (fun w => ws.count w)) []).take n

/-- Embeds `_simple_key_point_extraction`: word-frequency top-10 over the
pooled preprocessed answers, each word attributed to the tools whose
preprocessed answer contains it. -/
def simpleKeyPointExtraction (results : List RDict) : Json :=
  let allWords := results.foldl (fun acc r => acc ++ preprocessText r.answer) []
  let top := mostCommon allWords 10
  Json.arr (top.map (fun w =>
    Json.obj
      [("content", Json.str w),
       ("sources", Json.arr
         ((results.filter (fun r => (preprocessText r.answer).contains w)).map
           (fun r => Json.str r.toolName)))]))

/-- The response normalisation shared by `_extract_key_points` and
`_identify_differences`: full-width commas to ASCII commas, one leading
```` ```json ```` fence marker and one trailing ```` ``` ```` stripped,
then `strip()`. -/
def normalizeResponse (resp : String) : String :=
  let r := String.mk (resp.data.map (fun c => if c = '，' then ',' else c))
  let r := if PyStr.pyStartsWith r "```json" then PyStr.pyDrop r 7 else r
  let r := if PyStr.pyEndsWith r "```" then PyStr.pyDropRight r 3 else r
  PyStr.pyStrip r

/-- Embeds `_extract_key_points` given the text returned by
`generate_response`: empty or unparseable responses fall back to
`_simple_key_point_extraction`, a parsed response is returned as is. -/
def extractKeyPoints (resp : String) (results : List RDict) : Json :=
  if PyStr.pyStrip resp = "" then simpleKeyPointExtraction results
  else
    let r := normalizeResponse resp
    if r = "" then simpleKeyPointExtraction results
    else
      match PyJson.jsonLoads r with
      | some v => v
      | none => simpleKeyPointExtraction results

/-- Embeds `_extract_key_points` including the outer `except Exception`
(`none` = `generate_response` raised). -/
def extractKeyPointsTop (llmResp : Option String) (results : List RDict) : Json :=
  match llmResp with
  | none => simpleKeyPointExtraction results
  | some resp => extractKeyPoints resp results

/-- Embeds `_identify_differences` given the `generate_response` text:
empty or unparseable responses yield the empty list. -/
def identifyDifferences (resp : String) : Json :=
  if PyStr.pyStrip resp = "" then Json.arr []
  else
    let r := normalizeResponse resp
    if r = "" then Json.arr []
    else
      match PyJson.jsonLoads r with
      | some v => v
      | none => Json.arr []

/-- Embeds `_identify_differences` including the outer `except Exception`. -/
def identifyDifferencesTop (llmResp : Option String) : Json :=
  match llmResp with
  | none => Json.arr []
  | some resp => identifyDifferences resp

end AnalyzerV1

/-! ## ToolManager

Embedding of `src/infrastructure/tools/tool_manager.py`.  One external
provider invocation is a child process whose observable outcome is its exit
code with captured output streams, a timeout of `asyncio.wait_for`, or some
other raised exception; `ToolEnv.proc` gives that outcome per tool name and
attempt number.  Wall-clock derived fields (`execution_time`, `timestamp`)
are modelled as `0` and `""`; the telemetry side call
`tool_selector.record_tool_execution` mutates no state any claim reads and
is omitted. -/

namespace ToolMgr

/-- The `ToolResult` dataclass of `tool_manager.py`. -/
structure ToolResult where
  toolName : String
  success : Bool
  answer : String
  errorMessage : String
  executionTime : ℚ := 0
  timestamp : String := ""
deriving Repr, DecidableEq

/-- Outcome of the child process run by `_execute_tool_internal`. -/
inductive ProcOut where
  | exited (returncode : Int) (stdout stderr : String)
  | timedOut
  | raised (msg : String)
deriving Repr, DecidableEq

/-- The manager's environment: the enabled tools (already priority-sorted,
as `self.enabled_tools`) and each tool's process outcome per attempt for the
question under consideration. -/
structure ToolEnv where
  enabledTools : List String
  proc : String → Nat → ProcOut

/-- Embeds `_execute_tool_internal`: exit code 0 yields a success result
with the stripped standard output as the answer; a non-zero exit yields a
failure result quoting the return code and standard error; a timeout
re-raises `asyncio.TimeoutError` and any other exception propagates, both to
be caught (or not) by the retry handler. -/
def executeToolInternal (env : ToolEnv) (name : String) (attempt : Nat) :
    PyOutcome ToolResult :=
  match env.proc name attempt with
  | .exited code out err =>
      if code = 0 then
        .ok { toolName := name, success := true, answer := PyStr.pyStrip out,
              errorMessage := "" }
      else
        .ok { toolName := name, success := false, answer := "",
              errorMessage :=
                "返回码: " ++ toString code ++ ", 错误信息: " ++ PyStr.pyStrip err }
  | .timedOut => .timeoutExn ""
  | .raised m => .exn m

/-- Embeds `retry_result.error or "执行失败"` (Python `or`: an empty or
missing error string falls back to the literal). -/
def errorOrDefault (e : Option String) : String :=
  match e with
  | some s => if s = "" then "执行失败" else s
  | none => "执行失败"

/-- Embeds `ToolManager.run_tool`.  An unknown or disabled tool name yields
an immediate failure result; otherwise the internal execution runs under the
tools retry handler, and the retry result is unwrapped exactly as in the
source.  `Except.error` models an exception escaping `run_tool` (possible
only when the retry policy is disabled). -/
def runTool (env : ToolEnv) (cfg : RetryConfig) (ask : Nat → Bool)
    (name : String) : Except String ToolResult :=
  if !env.enabledTools.contains name then
    .ok { toolName := name, success := false, answer := "",
          errorMessage := "工具 " ++ name ++ " 未找到或未启用" }
  else
    match ToolsRetry.executeWithRetry cfg (executeToolInternal env name) ask with
    | .error e => .error e
    | .ok r =>
        if r.success then
          match r.value with
          | none =>
              .ok { toolName := name, success := false, answer := "",
                    errorMessage := "执行结果为空" }
          | some result => .ok result
        else
          .ok { toolName := name, success := false, answer := "",
                errorMessage := errorOrDefault r.error }

/-- Models `asyncio.gather` over `run_tool` coroutines: all results are
collected; an exception escaping any `run_tool` propagates out of the batch
(`gather` re-raises it). -/
def gatherResults (f : String → Except String ToolResult) :
    List String → Except String (List ToolResult)
  | [] => .ok []
  | n :: ns =>
      match f n, gatherResults f ns with
      | .error e, _ => .error e
      | .ok _, .error e => .error e
      | .ok r, .ok rs => .ok (r :: rs)

/-- Embeds `ToolManager.run_multiple_tools`: an empty (or omitted) request
list falls back to all enabled tools, the list is then truncated to
`config.app.max_parallel_tools`, and the truncated tools are run with
`asyncio.gather`. -/
def runMultipleTools (env : ToolEnv) (cfg : RetryConfig) (ask : Nat → Bool)
    (maxParallel : Nat) (toolNames : List String) :
    Except String (List ToolResult) :=
  let names := if toolNames.isEmpty then env.enabledTools else toolNames
  gatherResults (runTool env cfg ask) (names.take maxParallel)

/-- The ProviderResult data-model invariant of the specification, as enforced
by `DataValidator.validate_tool_result` in
`src/infrastructure/data/data_validator.py` (lines 35-39): a successful
result carries an answer, a failed result carries an error message.  The
validator has no check forcing `error_message` empty on success or `answer`
empty on failure beyond the claims' reading; the claim's stronger reading is
stated here. -/
def toolResultInvariant (r : ToolResult) : Prop :=
  (r.success = true → r.answer ≠ "" ∧ r.errorMessage = "") ∧
  (r.success = false → r.errorMessage ≠ "" ∧ r.answer = "")

instance (r : ToolResult) : Decidable (toolResultInvariant r) := by
  unfold toolResultInvariant; infer_instance

end ToolMgr

/-! ## Persistence: entities, validator, connection, unit of work

Embedding of `src/models/entities.py`,
`src/infrastructure/data/data_validator.py`,
`src/infrastructure/data/unit_of_work.py` and the staging behaviour of
`src/infrastructure/data/repositories/sqlite_repository.py`.  The SQLite
connection is modelled as a durable row list plus a list of rows staged in
the open transaction: `cursor.execute(INSERT ...)` appends to the staged
list, `conn.commit()` makes the staged rows durable, `conn.rollback()`
discards them.  `id` autoincrement columns and `timestamp` fields are not
modelled. -/

namespace Persist

/-- The `Session` entity (fields the validator reads). -/
structure SessionE where
  originalQuestion : String
  refinedQuestion : Option String := none
  completed : Bool := false
deriving Repr, DecidableEq

/-- The `ToolResult` entity of `src/models/entities.py`. -/
structure ToolResultE where
  sessionId : Int
  toolName : String
  success : Bool
  answer : String
  errorMessage : String
  executionTime : ℚ := 0
deriving Repr, DecidableEq

/-- The `AnalysisResult` entity of `src/models/entities.py`. -/
structure AnalysisResultE where
  sessionId : Int
  similarityMatrix : List (List ℚ)
  consensusScores : List (String × ℚ)
  keyPoints : List Json := []
  differences : List Json := []
  comprehensiveSummary : String
  finalConclusion : String
deriving Repr

/-- Embeds `DataValidator.validate_session`. -/
def validateSession (s : SessionE) : Except String Unit :=
  if s.originalQuestion = "" ∨ PyStr.pyStrip s.originalQuestion = "" then
    .error "原始问题不能为空"
  else if 1000 < s.originalQuestion.data.length then
    .error "问题的长度不能超过1000个字符"
  else .ok ()

/-- Embeds `DataValidator.validate_tool_result`. -/
def validateToolResult (r : ToolResultE) : Except String Unit :=
  if r.toolName = "" ∨ PyStr.pyStrip r.toolName = "" then
    .error "工具名称不能为空"
  else if r.sessionId ≤ 0 then
    .error "会话ID必须大于0"
  else if r.executionTime < 0 then
    .error "执行时间不能为负数"
  else if r.success ∧ r.answer = "" then
    .error "成功的工具结果必须包含答案"
  else if ¬r.success ∧ r.errorMessage = "" then
    .error "失败的工具结果必须包含错误信息"
  else .ok ()

/-- Embeds `DataValidator.validate_analysis_result`. -/
def validateAnalysisResult (a : AnalysisResultE) : Except String Unit :=
  if a.sessionId ≤ 0 then
    .error "会话ID必须大于0"
  else if a.similarityMatrix.isEmpty then
    .error "相似度矩阵不能为空"
  else if a.comprehensiveSummary = "" then
    .error "综合总结不能为空"
  else if a.finalConclusion = "" then
    .error "最终结论不能为空"
  else .ok ()

/-- One row written by a repository `INSERT`. -/
inductive DbRow where
  | sessionRow (s : SessionE)
  | toolResultRow (r : ToolResultE)
  | analysisRow (a : AnalysisResultE)
deriving Repr

/-- The SQLite connection: durable rows plus rows staged in the currently
open transaction. -/
structure DbConn where
  durable : List DbRow
  staged : List DbRow
deriving Repr

/-- An `INSERT` executed on the connection stages a row. -/
def connExec (c : DbConn) (row : DbRow) : DbConn :=
  { c with staged := c.staged ++ [row] }

/-- Embeds `sqlite3.Connection.commit`. -/
def connCommit (c : DbConn) : DbConn :=
  { durable := c.durable ++ c.staged, staged := [] }

/-- Embeds `sqlite3.Connection.rollback`. -/
def connRollback (c : DbConn) : DbConn :=
  { c with staged := [] }

/-- Embeds `SqliteUnitOfWork` state: the connection plus the
`_committed` / `_rolled_back` flags set in `__init__`. -/
structure UnitOfWork where
  conn : DbConn
  committed : Bool := false
  rolledBack : Bool := false
deriving Repr

/-- Embeds `SqliteUnitOfWork.commit`: commits the connection and marks the
scope committed unless a rollback already happened. -/
def commit (u : UnitOfWork) : UnitOfWork :=
  if !u.rolledBack then
    { u with conn := connCommit u.conn, committed := true }
  else u

/-- Embeds `SqliteUnitOfWork.rollback`: rolls the connection back and marks
the scope rolled back unless a commit already happened. -/
def rollback (u : UnitOfWork) : UnitOfWork :=
  if !u.committed then
    { u with conn := connRollback u.conn, rolledBack := true }
  else u

/-- Embeds `SqliteUnitOfWork.__aexit__`: rollback on an in-scope exception,
otherwise commit unless the scope was already closed explicitly. -/
def aexit (u : UnitOfWork) (excRaised : Bool) : UnitOfWork :=
  if excRaised then rollback u
  else if !u.committed ∧ !u.rolledBack then commit u
  else u

/-- Embeds `SqliteToolResultRepository.add` (validate, then `INSERT`): on a
validation error the unit of work is returned unchanged together with the
raised message. -/
def toolResultAdd (u : UnitOfWork) (e : ToolResultE) : UnitOfWork × Option String :=
  match validateToolResult e with
  | .error m => (u, some m)
  | .ok _ => ({ u with conn := connExec u.conn (.toolResultRow e) }, none)

/-- Embeds `SqliteToolResultRepository.add_batch`: per-entity validate and
`INSERT` in order; a validation failure raises after the earlier rows have
already been staged. -/
def toolResultAddBatch (u : UnitOfWork) : List ToolResultE → UnitOfWork × Option String
  | [] => (u, none)
  | e :: es =>
      match toolResultAdd u e with
      | (u', none) => toolResultAddBatch u' es
      | (u', some m) => (u', some m)

/-- Embeds `SqliteAnalysisResultRepository.add` (validate, then `INSERT`). -/
def analysisAdd (u : UnitOfWork) (a : AnalysisResultE) : UnitOfWork × Option String :=
  match validateAnalysisResult a with
  | .error m => (u, some m)
  | .ok _ => ({ u with conn := connExec u.conn (.analysisRow a) }, none)

/-- Embeds `SqliteSessionRepository.add` (validate, then `INSERT`). -/
def sessionAdd (u : UnitOfWork) (s : SessionE) : UnitOfWork × Option String :=
  match validateSession s with
  | .error m => (u, some m)
  | .ok _ => ({ u with conn := connExec u.conn (.sessionRow s) }, none)

/-- Embeds one `async with SqliteUnitOfWork(conn, validator)` scope as
created by `TransactionManager.begin_transaction`: the body receives the
fresh unit of work and returns the final unit of work plus the exception it
raised, if any; `__aexit__` then closes the scope, and the body's exception
is re-raised.  Returns the connection after the scope and the propagated
exception. -/
def runScope (conn : DbConn) (body : UnitOfWork → UnitOfWork × Option String) :
    DbConn × Option String :=
  let u0 : UnitOfWork := { conn := conn }
  let (u1, exc) := body u0
  match exc with
  | some e => ((aexit u1 true).conn, some e)
  | none => ((aexit u1 false).conn, none)

end Persist

/-! ## Similarity scorer

Embedding of `_calculate_similarity_matrix` and
`_calculate_consensus_scores` of both analyzer generations.  The external
`sklearn` vectorizer is modelled by its documented default semantics:
lowercase, token pattern `\b\w\w+\b` (word-character runs of length at least
2, ASCII model), built-in English stop-word removal, smooth-idf term
weighting `tf * (ln((1+n)/(1+df)) + 1)`, and row-L2-normalised cosine
similarity in which an all-zero row stays zero (so an entry with a zero row
is `0`, matching `sklearn.preprocessing.normalize`).  Floating point is
idealised as real arithmetic.  `fit_transform` raises `ValueError` when the
corpus yields an empty vocabulary; v1 propagates that exception while v2
catches every exception and substitutes `np.ones((n, n))`. -/

namespace Scorer

def isWordChar (c : Char) : Bool :=
  c.isAlphanum || c = '_'

def tokenizeAux : List Char → List Char → List String
  | [], cur => if cur.isEmpty then [] else [String.mk cur.reverse]
  | c :: cs, cur =>
      if isWordChar c then tokenizeAux cs (c :: cur)
      else if cur.isEmpty then tokenizeAux cs []
      else String.mk cur.reverse :: tokenizeAux cs []

/-- The default `sklearn` analyzer's tokenisation of a document: lowercase,
maximal word-character runs, keep tokens of length at least 2. -/
def sklearnTokenize (text : String) : List String :=
  (tokenizeAux (PyStr.pyLower text).data []).filter (fun w => 2 ≤ w.data.length)

/-- The built-in `sklearn` English stop-word list
(`sklearn.feature_extraction.text.ENGLISH_STOP_WORDS`), an external-library
constant selected by `stop_words="english"` in both analyzers. -/
def sklearnStopWords : List String :=
  ["a", "about", "above", "across", "after", "afterwards", "again",
   "against", "all", "almost", "alone", "along", "already", "also",
   "although", "always", "am", "among", "amongst", "amoungst", "amount",
   "an", "and", "another", "any", "anyhow", "anyone", "anything", "anyway",
   "anywhere", "are", "around", "as", "at", "back", "be", "became",
   "because", "become", "becomes", "becoming", "been", "before",
   "beforehand", "behind", "being", "below", "beside", "besides",
   "between", "beyond", "bill", "both", "bottom", "but", "by", "call",
   "can", "cannot", "cant", "co", "con", "could", "couldnt", "cry", "de",
   "describe", "detail", "do", "done", "down", "due", "during", "each",
   "eg", "eight", "either", "eleven", "else", "elsewhere", "empty",
   "enough", "etc", "even", "ever", "every", "everyone", "everything",
   "everywhere", "except", "few", "fifteen", "fifty", "fill", "find",
   "fire", "first", "five", "for", "former", "formerly", "forty", "found",
   "four", "from", "front", "full", "further", "get", "give", "go", "had",
   "has", "hasnt", "have", "he", "hence", "her", "here", "hereafter",
   "hereby", "herein", "hereupon", "hers", "herself", "him", "himself",
   "his", "how", "however", "hundred", "i", "ie", "if", "in", "inc",
   "indeed", "interest", "into", "is", "it", "its", "itself", "keep",
   "last", "latter", "latterly", "least", "less", "ltd", "made", "many",
   "may", "me", "meanwhile", "might", "mill", "mine", "more", "moreover",
   "most", "mostly", "move", "much", "must", "my", "myself", "name",
   "namely", "neither", "never", "nevertheless", "next", "nine", "no",
   "nobody", "none", "noone", "nor", "not", "nothing", "now", "nowhere",
   "of", "off", "often", "on", "once", "one", "only", "onto", "or",
   "other", "others", "otherwise", "our", "ours", "ourselves", "out",
   "over", "own", "part", "per", "perhaps", "please", "put", "rather",
   "re", "same", "see", "seem", "seemed", "seeming", "seems", "serious",
   "several", "she", "should", "show", "side", "since", "sincere", "six",
   "sixty", "so", "some", "somehow", "someone", "something", "sometime",
   "sometimes", "somewhere", "still", "such", "system", "take", "ten",
   "than", "that", "the", "their", "them", "themselves", "then", "thence",
   "there", "thereafter", "thereby", "therefore", "therein", "thereupon",
   "these", "they", "thick", "thin", "third", "this", "those", "though",
   "three", "through", "throughout", "thru", "thus", "to", "together",
   "too", "top", "toward", "towards", "twelve", "twenty", "two", "un",
   "under", "until", "up", "upon", "us", "very", "via", "was", "we",
   "well", "were", "what", "whatever", "when", "whence", "whenever",
   "where", "whereafter", "whereas", "whereby", "wherein", "whereupon",
   "wherever", "whether", "which", "while", "whither", "who", "whoever",
   "whole", "whom", "whose", "why", "will", "with", "within", "without",
   "would", "yet", "you", "your", "yours", "yourself", "yourselves"]

/-- Terms of a document under v1's `TfidfVectorizer(stop_words="english")`:
default tokenisation minus stop words. -/
def sklearnTerms (text : String) : List String :=
  (sklearnTokenize text).filter (fun w => !sklearnStopWords.contains w)

/-- Terms of a document under v2's vectorizer
(`tokenizer=self._custom_tokenizer, stop_words="english"`).  The custom
tokenizer is modelled on its deterministic fallback path
(`text.lower().split()` with `isalpha` filtering; NLTK's English stop-word
set — an external linguistic resource — is stood in for by the repository's
own `DEFAULT_STOP_WORDS` fallback copy of it, and lemmatisation by the
identity); `sklearn` then removes its English stop words from the custom
tokens.  The `max_features=1000` vocabulary cap is not modelled. -/
def v2TermsOfText (text : String) : List String :=
  ((PyStr.pySplit (PyStr.pyLower text)).filter
    (fun w => PyStr.pyIsAlphaStr w && !AnalyzerV1.defaultStopWords.contains w)).filter
    (fun w => !sklearnStopWords.contains w)

/-- The fitted vocabulary: every term of every document. -/
def vocabOf (terms : String → List String) (answers : List String) : Finset String :=
  ((answers.map terms).flatten).toFinset

/-- Term frequency of `t` in one document. -/
def tf (terms : String → List String) (text t : String) : Nat :=
  (terms text).count t

/-- Document frequency of `t` in the corpus. -/
def df (terms : String → List String) (answers : List String) (t : String) : Nat :=
  (answers.filter (fun a => (terms a).contains t)).length

/-- Smooth inverse document frequency, `sklearn`'s default
`ln((1 + n) / (1 + df)) + 1`. -/
noncomputable def idf (terms : String → List String) (answers : List String)
    (t : String) : ℝ :=
  Real.log ((1 + answers.length) / (1 + df terms answers t)) + 1

/-- The tf-idf weight vector of one document over the vocabulary. -/
noncomputable def weight (terms : String → List String) (answers : List String)
    (a t : String) : ℝ :=
  (tf terms a t : ℝ) * idf terms answers t

/-- Dot product over the fitted vocabulary. -/
noncomputable def dotV (terms : String → List String) (answers : List String)
    (f g : String → ℝ) : ℝ :=
  ∑ t ∈ vocabOf terms answers, f t * g t

/-- One cosine-similarity entry, with `sklearn`'s convention that an
all-zero row is left as the zero vector by L2 normalisation (in real
arithmetic this is the `0/0 = 0` case of the quotient). -/
noncomputable def simEntry (terms : String → List String) (answers : List String)
    (a b : String) : ℝ :=
  dotV terms answers (weight terms answers a) (weight terms answers b) /
    (Real.sqrt (dotV terms answers (weight terms answers a) (weight terms answers a)) *
      Real.sqrt (dotV terms answers (weight terms answers b) (weight terms answers b)))

/-- The cosine-similarity matrix of the corpus. -/
noncomputable def simMatrixCore (terms : String → List String)
    (answers : List String) : List (List ℝ) :=
  answers.map (fun a => answers.map (fun b => simEntry terms answers a b))

/-- Embeds v1's `_calculate_similarity_matrix`
(`consensus_analyzer.py`, lines 328-343): `fit_transform` raises on an empty
vocabulary and the exception propagates; otherwise the cosine matrix of the
tf-idf rows is returned.  No diagonal filling is performed. -/
noncomputable def simMatrixV1 (answers : List String) : Except String (List (List ℝ)) :=
  if vocabOf sklearnTerms answers = ∅ then .error "empty vocabulary"
  else .ok (simMatrixCore sklearnTerms answers)

noncomputable def onesMat (n : Nat) : List (List ℝ) :=
  List.replicate n (List.replicate n 1)

/-- Embeds v2's `_calculate_similarity_matrix`
(`consensus_analyzer_v2.py`, lines 198-214): a missing vectorizer or any
exception (such as the empty-vocabulary `ValueError`) yields
`np.ones((n, n))`; otherwise the cosine matrix of the tf-idf rows.  No
diagonal filling is performed. -/
noncomputable def simMatrixV2 (answers : List String) : List (List ℝ) :=
  if vocabOf v2TermsOfText answers = ∅ then onesMat answers.length
  else simMatrixCore v2TermsOfText answers

/-- Mean of one matrix row (`np.mean`). -/
noncomputable def rowMean (row : List ℝ) : ℝ :=
  row.sum / row.length

/-- Python 3 `round` to the nearest integer, half to even. -/
noncomputable def pyRoundHalfEven (x : ℝ) : ℤ :=
  if x - ⌊x⌋ < 1 / 2 then ⌊x⌋
  else if 1 / 2 < x - ⌊x⌋ then ⌊x⌋ + 1
  else if Even ⌊x⌋ then ⌊x⌋ else ⌊x⌋ + 1

/-- Python `round(x, 2)` idealised over the reals. -/
noncomputable def pyRound2 (x : ℝ) : ℝ :=
  (pyRoundHalfEven (x * 100) : ℝ) / 100

/-- Python `dict` assignment `m[k] = v`: an existing key keeps its position
and gets the new value, a new key is appended. -/
def dictInsert (m : List (String × α)) (k : String) (v : α) : List (String × α) :=
  if m.any (fun p => p.1 == k) then
    m.map (fun p => if p.1 == k then (k, v) else p)
  else m ++ [(k, v)]

/-- Embeds v1's `_calculate_consensus_scores`
(`consensus_analyzer.py`, lines 345-360): per result, the mean of its matrix
row, scaled by 100 and rounded to two decimals, keyed by tool name. -/
noncomputable def v1ConsensusScores (results : List AnalyzerV1.RDict)
    (matrix : List (List ℝ)) : List (String × ℝ) :=
  (results.zip matrix).foldl
    (fun acc pr => dictInsert acc pr.1.toolName (pyRound2 (rowMean pr.2 * 100))) []

/-- Embeds v2's `_calculate_consensus_scores`
(`consensus_analyzer_v2.py`, lines 216-229): per result, the raw mean of its
matrix row (no scaling, no rounding), keyed by tool name. -/
noncomputable def v2ConsensusScores (results : List AnalyzerV1.RDict)
    (matrix : List (List ℝ)) : List (String × ℝ) :=
  (results.zip matrix).foldl
    (fun acc pr => dictInsert acc pr.1.toolName (rowMean pr.2)) []

end Scorer

/-! ## Analyzer entry points

Embedding of `analyze_consensus` of both generations up to their returned
value.  v1's `data_manager.save_analysis_result` side call and v2's
transactional save are persistence effects whose staging semantics is the
`Persist` model above; here only v2's entity validation (which would raise
out of `analyze_consensus`) is reflected, database connectivity being an
external collaborator. -/

namespace Analyzer

/-- The `ConsensusAnalysisResult` dataclass shared by both generations. -/
structure ConsensusAnalysisResult where
  sessionId : Int
  similarityMatrix : List (List ℝ)
  consensusScores : List (String × ℝ)
  keyPoints : Json
  differences : Json
  comprehensiveSummary : String
  finalConclusion : String

/-- Embeds v1's `analyze_consensus` (`consensus_analyzer.py`, lines
261-326).  The four generative prompts (key points, differences, summary,
conclusion) are abstract collaborators, each given as `Option String` with
`none` for a raised `generate_response`; summary and conclusion degrade to
their fixed fallback strings.  With no successful result the method raises
`ValueError` before anything else happens. -/
noncomputable def v1AnalyzeConsensus (sessionId : Int)
    (kpResp diffResp sumResp conResp : Option String)
    (toolResults : List AnalyzerV1.RDict) : Except String ConsensusAnalysisResult :=
  let successful := toolResults.filter (fun r => r.success)
  if successful.isEmpty then .error "没有成功的工具结果可分析"
  else
    match Scorer.simMatrixV1 (successful.map (fun r => r.answer)) with
    | .error e => .error e
    | .ok m =>
        .ok { sessionId := sessionId, similarityMatrix := m,
              consensusScores := Scorer.v1ConsensusScores successful m,
              keyPoints := AnalyzerV1.extractKeyPointsTop kpResp successful,
              differences := AnalyzerV1.identifyDifferencesTop diffResp,
              comprehensiveSummary :=
                (match sumResp with | some s => s | none => "综合总结生成失败"),
              finalConclusion :=
                (match conResp with | some s => s | none => "最终结论生成失败") }

/-- Embeds v2's `_extract_key_points`: per successful result with a
non-empty answer, the tool name and the first 200 characters of the
answer. -/
def v2KeyPointsPairs (results : List AnalyzerV1.RDict) : List (String × String) :=
  results.filterMap (fun r =>
    if r.answer ≠ "" then some (r.toolName, PyStr.pyTake r.answer 200) else none)

def v2KeyPointsJson (ps : List (String × String)) : Json :=
  Json.arr (ps.map (fun p =>
    Json.obj [("source", Json.str p.1), ("point", Json.str p.2)]))

def v2DiffPairsAux : List AnalyzerV1.RDict → List (String × String)
  | [] => []
  | r :: rs =>
      (rs.filterMap (fun r2 =>
        if r.answer ≠ "" ∧ r2.answer ≠ "" ∧ r.answer ≠ r2.answer then
          some (r.toolName, r2.toolName)
        else none)) ++ v2DiffPairsAux rs

/-- Embeds v2's `_identify_differences`: ordered pairs `i < j` whose
answers are both non-empty and differ. -/
def v2Differences (results : List AnalyzerV1.RDict) : List (String × String) :=
  if results.length < 2 then [] else v2DiffPairsAux results

def v2DiffDescription (d : String × String) : String :=
  d.1 ++ "和" ++ d.2 ++ "的结果存在差异"

def v2DiffJson (ds : List (String × String)) : Json :=
  Json.arr (ds.map (fun d =>
    Json.obj [("tools", Json.arr [Json.str d.1, Json.str d.2]),
              ("description", Json.str (v2DiffDescription d))]))

/-- Embeds v2's `_generate_comprehensive_summary` (local, no generative
model). -/
def v2Summary (question : String) (n : Nat) (kps ds : List (String × String)) :
    String :=
  String.intercalate "\n"
    (["问题: " ++ question, "共分析了 " ++ toString n ++ " 个工具的结果"]
      ++ (if kps.isEmpty then []
          else "核心观点:" :: (kps.take 3).map (fun p => "- " ++ p.1 ++ ": " ++ p.2))
      ++ (if ds.isEmpty then []
          else "主要分歧:" :: (ds.take 2).map (fun d => "- " ++ v2DiffDescription d)))

/-- Embeds v2's `_generate_final_conclusion`: thresholds 0.7 and 0.5 on the
average of the (unscaled) consensus scores. -/
noncomputable def v2Conclusion (scores : List (String × ℝ)) : String :=
  if scores.isEmpty then "由于数据不足，无法生成可靠的结论。"
  else
    let avg := (scores.map Prod.snd).sum / scores.length
    if 0.7 < avg then "各工具结果高度一致，结论可信度高。"
    else if 0.5 < avg then "各工具结果基本一致，但存在一定差异。"
    else "各工具结果存在较大差异，建议进一步验证。"

/-- Embeds v2's `_create_default_result` (`consensus_analyzer_v2.py`, lines
331-341): the fixed degenerate result for fewer than two successes. -/
noncomputable def v2DefaultResult (sessionId : Int) : ConsensusAnalysisResult :=
  { sessionId := sessionId, similarityMatrix := [[1]], consensusScores := [],
    keyPoints := Json.arr [], differences := Json.arr [],
    comprehensiveSummary := "数据不足，无法进行共识分析。",
    finalConclusion := "无法生成结论。" }

/-- Embeds v2's `analyze_consensus` (`consensus_analyzer_v2.py`, lines
101-171): fewer than two successes return `_create_default_result` before
any further computation; otherwise the full local analysis runs and the
transactional save's entity validation may raise out of the method. -/
noncomputable def v2AnalyzeConsensus (sessionId : Int) (question : String)
    (toolResults : List AnalyzerV1.RDict) : Except String ConsensusAnalysisResult :=
  let successful := toolResults.filter (fun r => r.success)
  if successful.length < 2 then .ok (v2DefaultResult sessionId)
  else
    let m := Scorer.simMatrixV2 (successful.map (fun r => r.answer))
    let scores := Scorer.v2ConsensusScores successful m
    let kps := v2KeyPointsPairs successful
    let ds := v2Differences successful
    let summary := v2Summary question successful.length kps ds
    let conclusion := v2Conclusion scores
    if sessionId ≤ 0 then .error "会话ID必须大于0"
    else if m.isEmpty then .error "相似度矩阵不能为空"
    else if summary = "" then .error "综合总结不能为空"
    else if conclusion = "" then .error "最终结论不能为空"
    else
      .ok { sessionId := sessionId, similarityMatrix := m,
            consensusScores := scores, keyPoints := v2KeyPointsJson kps,
            differences := v2DiffJson ds, comprehensiveSummary := summary,
            finalConclusion := conclusion }

end Analyzer

/-! ## Scenario definitions used by the statements below -/

namespace Persist

/-- The atomicity scenario of the specification: inside one unit-of-work
scope, insert the ProviderResult batch, then raise the exception `e` before
the ConsensusAnalysis insert and before any commit (a validation error
inside the batch insert likewise raises mid-scope). -/
def c4Body (results : List ToolResultE) (e : String)
    (u : UnitOfWork) : UnitOfWork × Option String :=
  match toolResultAddBatch u results with
  | (u', none) => (u', some e)
  | (u', some m) => (u', some m)

end Persist

namespace Scorer

/-- The matrix is square with the given side. -/
def matrixIsSquare (M : List (List ℝ)) (n : Nat) : Prop :=
  M.length = n ∧ ∀ row ∈ M, row.length = n

/-- The matrix is symmetric. -/
def matrixSymm (M : List (List ℝ)) : Prop :=
  ∀ (i j : Nat) (hi : i < M.length) (hj : j < M.length)
    (hj' : j < (M.get ⟨i, hi⟩).length) (hi' : i < (M.get ⟨j, hj⟩).length),
    (M.get ⟨i, hi⟩).get ⟨j, hj'⟩ = (M.get ⟨j, hj⟩).get ⟨i, hi'⟩

/-- Every entry lies in the closed unit interval. -/
def entriesIn01 (M : List (List ℝ)) : Prop :=
  ∀ row ∈ M, ∀ x ∈ row, 0 ≤ x ∧ x ≤ 1

end Scorer

/-! ## Helper lemmas -/

namespace ToolsRetry

/-- Structure of the enabled-branch loop result: a successful result carries
the value of some successful call, a failed result carries no value. -/
theorem go_value_shape (cfg : RetryConfig) (op : Nat → PyOutcome α) (ask : Nat → Bool) :
    ∀ (fuel current : Nat) (last : Option String),
      ((go cfg op ask current fuel last).success = true →
        ∃ n v, op n = PyOutcome.ok v ∧ (go cfg op ask current fuel last).value = some v) ∧
      ((go cfg op ask current fuel last).success = false →
        (go cfg op ask current fuel last).value = none) := by
  intro fuel
  induction fuel with
  | zero => intro current last; simp [go]
  | succ fuel ih =>
      intro current last
      cases h : op (current + 1) with
      | ok v =>
          refine ⟨fun _ => ⟨current + 1, v, h, by simp [go, h]⟩, fun hfalse => ?_⟩
          simp [go, h] at hfalse
      | timeoutExn m =>
          simp only [go, h]
          split
          · simp
          · split
            · simp
            · split
              · exact ih current.succ (some ("超时错误: " ++ m))
              · split
                · exact ih current.succ (some ("超时错误: " ++ m))
                · simp
      | exn m =>
          simp only [go, h]
          split
          · simp
          · split
            · simp
            · split
              · exact ih current.succ (some ("执行错误: " ++ m))
              · split
                · exact ih current.succ (some ("执行错误: " ++ m))
                · simp

/-- With the policy enabled, `execute_with_retry` always returns a result
object: every exception of the operation is caught by the loop. -/
theorem executeWithRetry_enabled_ok (cfg : RetryConfig) (op : Nat → PyOutcome α)
    (ask : Nat → Bool) (hcfg : cfg.enabled = true) :
    ∃ r : RetryResult α, executeWithRetry cfg op ask = .ok r ∧
      (r.success = true → ∃ n v, op n = PyOutcome.ok v ∧ r.value = some v) ∧
      (r.success = false → r.value = none) := by
  refine ⟨go cfg op ask 0 cfg.maxRetries none, ?_, ?_, ?_⟩
  · simp [executeWithRetry, hcfg]
  · exact (go_value_shape cfg op ask cfg.maxRetries 0 none).1
  · exact (go_value_shape cfg op ask cfg.maxRetries 0 none).2

end ToolsRetry

namespace DataRetry

/-- If every execution fails, the loop re-raises the error of the execution
at index `maxRetries`. -/
theorem go_exhaust (maxRetries : Nat) (op : Nat → Except String α) (f : Nat → String)
    (hop : ∀ n, op n = .error (f n)) :
    ∀ (fuel attempt : Nat), attempt + fuel = maxRetries →
      go maxRetries op attempt (fuel + 1) = .error (f maxRetries) := by
  intro fuel
  induction fuel with
  | zero =>
      intro attempt h
      simp only [Nat.add_zero] at h
      subst h
      simp [go, hop attempt]
  | succ fuel ih =>
      intro attempt h
      have hlt : attempt < maxRetries := by omega
      simp only [go, hop attempt, hlt, if_pos]
      exact ih (attempt + 1) (by omega)

/-- The data retry handler propagates the last exception after exhausting
its `maxRetries + 1` executions. -/
theorem executeWithRetry_exhaust (maxRetries : Nat) (op : Nat → Except String α)
    (f : Nat → String) (hop : ∀ n, op n = .error (f n)) :
    executeWithRetry maxRetries op = .error (f maxRetries) :=
  go_exhaust maxRetries op f hop maxRetries 0 (by omega)

end DataRetry

namespace ToolMgr

/-- Both exit-code branches of `_execute_tool_internal` put the requested
tool's name on the result. -/
theorem executeToolInternal_ok_name (env : ToolEnv) (name : String) (n : Nat)
    (v : ToolResult) (h : executeToolInternal env name n = PyOutcome.ok v) :
    v.toolName = name := by
  unfold executeToolInternal at h
  cases hp : env.proc name n <;> (rw [hp] at h; dsimp only at h)
  case exited code out err =>
    by_cases hc : code = 0
    · rw [if_pos hc] at h
      cases h
      rfl
    · rw [if_neg hc] at h
      cases h
      rfl
  case timedOut => cases h
  case raised => cases h

/-- With the retry policy enabled, `run_tool` returns a `ToolResult` for the
requested name on every path (unknown tool, retry success, retry failure). -/
theorem runTool_ok (env : ToolEnv) (cfg : RetryConfig) (ask : Nat → Bool)
    (name : String) (hcfg : cfg.enabled = true) :
    ∃ r, runTool env cfg ask name = .ok r ∧ r.toolName = name := by
  unfold runTool
  cases hmem : env.enabledTools.contains name with
  | false =>
      refine ⟨{ toolName := name, success := false, answer := "",
                errorMessage := "工具 " ++ name ++ " 未找到或未启用" }, ?_, rfl⟩
      simp
  | true =>
      obtain ⟨r', hr', hs, hf⟩ :=
        ToolsRetry.executeWithRetry_enabled_ok cfg (executeToolInternal env name) ask hcfg
      simp only [Bool.not_true, Bool.false_eq_true, if_false, hr']
      cases hrs : r'.success with
      | true =>
          obtain ⟨n, v, hop, hval⟩ := hs hrs
          simp only [hrs, if_true, hval]
          exact ⟨v, rfl, executeToolInternal_ok_name env name n v hop⟩
      | false =>
          simp only [hrs, Bool.false_eq_true, if_false]
          exact ⟨_, rfl, rfl⟩

/-- With the retry policy enabled the gathered batch never raises and yields
exactly one result per run name, in order. -/
theorem gather_runTool (env : ToolEnv) (cfg : RetryConfig) (ask : Nat → Bool)
    (hcfg : cfg.enabled = true) :
    ∀ l : List String, ∃ rs, gatherResults (runTool env cfg ask) l = .ok rs ∧
      rs.map ToolResult.toolName = l := by
  intro l
  induction l with
  | nil => exact ⟨[], rfl, rfl⟩
  | cons n l ih =>
      obtain ⟨r, hr, hname⟩ := runTool_ok env cfg ask n hcfg
      obtain ⟨rs, hrs, hmap⟩ := ih
      refine ⟨r :: rs, ?_, ?_⟩
      · simp [gatherResults, hr, hrs]
      · simp [hmap, hname]

end ToolMgr

namespace Persist

/-- The batch insert only stages rows: the durable store and the
commit/rollback flags are untouched. -/
theorem addBatch_frame :
    ∀ (results : List ToolResultE) (u : UnitOfWork),
      (toolResultAddBatch u results).1.conn.durable = u.conn.durable ∧
      (toolResultAddBatch u results).1.committed = u.committed ∧
      (toolResultAddBatch u results).1.rolledBack = u.rolledBack := by
  intro results
  induction results with
  | nil => intro u; exact ⟨rfl, rfl, rfl⟩
  | cons a es ih =>
      intro u
      unfold toolResultAddBatch toolResultAdd
      cases validateToolResult a with
      | error m => exact ⟨rfl, rfl, rfl⟩
      | ok _ => exact ih _

end Persist

namespace Scorer

/-- Inserting a key absent from the dict appends it. -/
theorem dictInsert_of_newKey (m : List (String × ℝ)) (k : String) (v : ℝ)
    (h : ∀ p ∈ m, p.1 ≠ k) : dictInsert m k v = m ++ [(k, v)] := by
  unfold dictInsert
  have : m.any (fun p => p.1 == k) = false := by
    rw [List.any_eq_false]
    intro p hp
    simpa using h p hp
  rw [this]
  simp

/-- Folding dict insertion over pairs with pairwise-distinct fresh keys is
plain accumulation. -/
theorem foldl_dictInsert (f : AnalyzerV1.RDict × List ℝ → ℝ) :
    ∀ (l : List (AnalyzerV1.RDict × List ℝ)) (acc : List (String × ℝ)),
      (∀ pr ∈ l, ∀ p ∈ acc, p.1 ≠ pr.1.toolName) →
      (l.map (fun pr => pr.1.toolName)).Nodup →
      l.foldl (fun acc pr => dictInsert acc pr.1.toolName (f pr)) acc =
        acc ++ l.map (fun pr => (pr.1.toolName, f pr)) := by
  intro l
  induction l with
  | nil => intro acc _ _; simp
  | cons pr l ih =>
      intro acc hacc hnd
      have hins : dictInsert acc pr.1.toolName (f pr) = acc ++ [(pr.1.toolName, f pr)] :=
        dictInsert_of_newKey acc pr.1.toolName (f pr)
          (fun p hp => hacc pr (List.mem_cons_self pr l) p hp)
      rw [List.foldl_cons, hins, ih]
      · simp
      · intro pr' hpr' p hp
        rcases List.mem_append.mp hp with hp | hp
        · exact hacc pr' (List.mem_cons_of_mem pr hpr') p hp
        · have hpk : p = (pr.1.toolName, f pr) := by simpa using hp
          subst hpk
          have hnd' : (pr.1.toolName :: l.map (fun pr => pr.1.toolName)).Nodup := by
            simpa using hnd
          have hnotmem := (List.nodup_cons.mp hnd').1
          intro hcontra
          have hmem : pr'.1.toolName ∈ l.map (fun pr => pr.1.toolName) :=
            List.mem_map_of_mem (fun pr => pr.1.toolName) hpr'
          simp only at hcontra
          rw [hcontra] at hnotmem
          exact hnotmem hmem
      · have hnd' : (pr.1.toolName :: l.map (fun pr => pr.1.toolName)).Nodup := by
          simpa using hnd
        exact (List.nodup_cons.mp hnd').2

/-- Closed form of v1's score dict for distinct tool names. -/
theorem v1Scores_eq (results : List AnalyzerV1.RDict) (matrix : List (List ℝ))
    (hlen : results.length = matrix.length)
    (hnd : (results.map AnalyzerV1.RDict.toolName).Nodup) :
    v1ConsensusScores results matrix =
      (results.zip matrix).map
        (fun pr => (pr.1.toolName, pyRound2 (rowMean pr.2 * 100))) := by
  unfold v1ConsensusScores
  have hkeys : (results.zip matrix).map (fun pr => pr.1.toolName) =
      results.map AnalyzerV1.RDict.toolName := by
    have h1 : (results.zip matrix).map (fun pr => pr.1.toolName) =
        ((results.zip matrix).map Prod.fst).map AnalyzerV1.RDict.toolName := by
      simp [List.map_map]
    rw [h1, List.map_fst_zip results matrix (le_of_eq hlen)]
  rw [foldl_dictInsert _ (results.zip matrix) [] (by simp) (by rw [hkeys]; exact hnd)]
  simp

/-- Closed form of v2's score dict for distinct tool names. -/
theorem v2Scores_eq (results : List AnalyzerV1.RDict) (matrix : List (List ℝ))
    (hlen : results.length = matrix.length)
    (hnd : (results.map AnalyzerV1.RDict.toolName).Nodup) :
    v2ConsensusScores results matrix =
      (results.zip matrix).map (fun pr => (pr.1.toolName, rowMean pr.2)) := by
  unfold v2ConsensusScores
  have hkeys : (results.zip matrix).map (fun pr => pr.1.toolName) =
      results.map AnalyzerV1.RDict.toolName := by
    have h1 : (results.zip matrix).map (fun pr => pr.1.toolName) =
        ((results.zip matrix).map Prod.fst).map AnalyzerV1.RDict.toolName := by
      simp [List.map_map]
    rw [h1, List.map_fst_zip results matrix (le_of_eq hlen)]
  rw [foldl_dictInsert _ (results.zip matrix) [] (by simp) (by rw [hkeys]; exact hnd)]
  simp

/-- The mean of a non-empty row of unit-interval entries lies in `[0, 1]`. -/
theorem rowMean_bounds (row : List ℝ) (hne : row ≠ [])
    (hb : ∀ x ∈ row, 0 ≤ x ∧ x ≤ 1) :
    0 ≤ rowMean row ∧ rowMean row ≤ 1 := by
  have hlen : (0 : ℝ) < row.length := by
    have := List.length_pos.mpr hne
    exact_mod_cast this
  have hsum0 : 0 ≤ row.sum := List.sum_nonneg (fun x hx => (hb x hx).1)
  have hsum1 : row.sum ≤ (row.length : ℝ) := by
    have := List.sum_le_card_nsmul row 1 (fun x hx => (hb x hx).2)
    simpa using this
  constructor
  · exact div_nonneg hsum0 (le_of_lt hlen)
  · rw [rowMean, div_le_one hlen]
    exact hsum1

/-- Round-half-to-even stays within an enclosing `[0, n]` window. -/
theorem pyRoundHalfEven_bounds (y : ℝ) (n : ℤ) (h0 : 0 ≤ y) (hn : y ≤ (n : ℝ)) :
    0 ≤ pyRoundHalfEven y ∧ pyRoundHalfEven y ≤ n := by
  have hfl0 : 0 ≤ ⌊y⌋ := Int.floor_nonneg.mpr h0
  have hfln : ⌊y⌋ ≤ n := by
    have := Int.floor_le_floor hn
    simpa using this
  have hplus : y - ⌊y⌋ ≥ 1/2 → ⌊y⌋ + 1 ≤ n := by
    intro hr
    have h1 : (⌊y⌋ : ℝ) + 1/2 ≤ y := by linarith
    have h2 : (⌊y⌋ : ℝ) < (n : ℝ) := by linarith
    have h3 : ⌊y⌋ < n := by exact_mod_cast h2
    omega
  unfold pyRoundHalfEven
  split_ifs with hc1 hc2 hc3
  · exact ⟨hfl0, hfln⟩
  · exact ⟨by omega, hplus (le_of_lt hc2)⟩
  · exact ⟨hfl0, hfln⟩
  · have hr : y - ⌊y⌋ = 1/2 := by linarith
    exact ⟨by omega, hplus (by linarith)⟩

/-- Two-decimal rounding keeps a value of `[0, 100]` in `[0, 100]`. -/
theorem pyRound2_bounds (x : ℝ) (h0 : 0 ≤ x) (h100 : x ≤ 100) :
    0 ≤ pyRound2 x ∧ pyRound2 x ≤ 100 := by
  have h0' : 0 ≤ x * 100 := by linarith
  have h100' : x * 100 ≤ ((10000 : ℤ) : ℝ) := by push_cast; linarith
  obtain ⟨hlo, hhi⟩ := pyRoundHalfEven_bounds (x * 100) 10000 h0' h100'
  unfold pyRound2
  constructor
  · apply div_nonneg _ (by norm_num : (0:ℝ) ≤ 100)
    exact_mod_cast hlo
  · rw [div_le_iff₀ (by norm_num : (0:ℝ) < 100)]
    calc (pyRoundHalfEven (x * 100) : ℝ) ≤ ((10000 : ℤ) : ℝ) := by exact_mod_cast hhi
    _ = 100 * 100 := by norm_num

end Scorer

namespace Scorer

/-- A term's document frequency never exceeds the corpus size. -/
theorem df_le_length (terms : String → List String) (answers : List String)
    (t : String) : df terms answers t ≤ answers.length :=
  List.length_filter_le _ answers

/-- Smooth idf is strictly positive (it is at least 1). -/
theorem idf_pos (terms : String → List String) (answers : List String)
    (t : String) : 0 < idf terms answers t := by
  unfold idf
  have hdf : (df terms answers t : ℝ) ≤ (answers.length : ℝ) := by
    exact_mod_cast df_le_length terms answers t
  have harg : (1 : ℝ) ≤ (1 + answers.length) / (1 + df terms answers t) := by
    rw [one_le_div (by positivity)]
    linarith
  have := Real.log_nonneg harg
  linarith

/-- Tf-idf weights are nonnegative. -/
theorem weight_nonneg (terms : String → List String) (answers : List String)
    (a t : String) : 0 ≤ weight terms answers a t :=
  mul_nonneg (by positivity) (le_of_lt (idf_pos terms answers t))

theorem dotV_nonneg (terms : String → List String) (answers : List String)
    (f g : String → ℝ) (hf : ∀ t, 0 ≤ f t) (hg : ∀ t, 0 ≤ g t) :
    0 ≤ dotV terms answers f g :=
  Finset.sum_nonneg (fun t _ => mul_nonneg (hf t) (hg t))

theorem dotV_symm (terms : String → List String) (answers : List String)
    (f g : String → ℝ) : dotV terms answers f g = dotV terms answers g f :=
  Finset.sum_congr rfl (fun t _ => mul_comm (f t) (g t))

/-- A vector with vanishing self-dot-product vanishes on the vocabulary. -/
theorem dotV_eq_zero_left (terms : String → List String) (answers : List String)
    (f : String → ℝ) (hf : ∀ t, 0 ≤ f t)
    (hzero : dotV terms answers f f = 0) (t : String)
    (ht : t ∈ vocabOf terms answers) : f t = 0 := by
  have hsq : ∀ u ∈ vocabOf terms answers, (0 : ℝ) ≤ f u * f u :=
    fun u _ => mul_nonneg (hf u) (hf u)
  have := (Finset.sum_eq_zero_iff_of_nonneg hsq).mp hzero t ht
  nlinarith [hf t]

theorem simEntry_symm (terms : String → List String) (answers : List String)
    (a b : String) : simEntry terms answers a b = simEntry terms answers b a := by
  unfold simEntry
  rw [dotV_symm terms answers (weight terms answers a) (weight terms answers b),
    mul_comm]

theorem simEntry_nonneg (terms : String → List String) (answers : List String)
    (a b : String) : 0 ≤ simEntry terms answers a b := by
  unfold simEntry
  apply div_nonneg
  · exact dotV_nonneg terms answers _ _ (weight_nonneg terms answers a)
      (weight_nonneg terms answers b)
  · exact mul_nonneg (Real.sqrt_nonneg _) (Real.sqrt_nonneg _)

/-- Cosine entries are at most 1 (Cauchy-Schwarz; the zero-vector
convention gives 0). -/
theorem simEntry_le_one (terms : String → List String) (answers : List String)
    (a b : String) : simEntry terms answers a b ≤ 1 := by
  unfold simEntry
  set f := weight terms answers a with hfdef
  set g := weight terms answers b with hgdef
  set D := dotV terms answers f g with hD
  set Na := Real.sqrt (dotV terms answers f f) with hNa
  set Nb := Real.sqrt (dotV terms answers g g) with hNb
  have hffnn : 0 ≤ dotV terms answers f f :=
    dotV_nonneg terms answers f f (weight_nonneg terms answers a)
      (weight_nonneg terms answers a)
  have hggnn : 0 ≤ dotV terms answers g g :=
    dotV_nonneg terms answers g g (weight_nonneg terms answers b)
      (weight_nonneg terms answers b)
  by_cases hNab : Na * Nb = 0
  · rcases mul_eq_zero.mp hNab with h | h
    · have hff0 : dotV terms answers f f = 0 :=
        le_antisymm (Real.sqrt_eq_zero'.mp h) hffnn
      have hD0 : D = 0 := by
        rw [hD]
        apply Finset.sum_eq_zero
        intro t ht
        rw [dotV_eq_zero_left terms answers f (weight_nonneg terms answers a) hff0 t ht]
        ring
      rw [hD0, hNab]
      norm_num
    · have hgg0 : dotV terms answers g g = 0 :=
        le_antisymm (Real.sqrt_eq_zero'.mp h) hggnn
      have hD0 : D = 0 := by
        rw [hD, dotV_symm terms answers f g]
        apply Finset.sum_eq_zero
        intro t ht
        rw [dotV_eq_zero_left terms answers g (weight_nonneg terms answers b) hgg0 t ht]
        ring
      rw [hD0, hNab]
      norm_num
  · have hNannNbnn : 0 ≤ Na ∧ 0 ≤ Nb := ⟨Real.sqrt_nonneg _, Real.sqrt_nonneg _⟩
    have hNabpos : 0 < Na * Nb :=
      lt_of_le_of_ne (mul_nonneg hNannNbnn.1 hNannNbnn.2) (Ne.symm hNab)
    rw [div_le_one hNabpos]
    have hCS : D ^ 2 ≤ dotV terms answers f f * dotV terms answers g g := by
      have := Finset.sum_mul_sq_le_sq_mul_sq (vocabOf terms answers) f g
      calc D ^ 2 = (∑ t ∈ vocabOf terms answers, f t * g t) ^ 2 := by rw [hD]; rfl
      _ ≤ (∑ t ∈ vocabOf terms answers, f t ^ 2) * ∑ t ∈ vocabOf terms answers, g t ^ 2 := this
      _ = dotV terms answers f f * dotV terms answers g g := by
          unfold dotV
          congr 1 <;> exact Finset.sum_congr rfl (fun t _ => by ring)
    have hNab2 : (Na * Nb) ^ 2 = dotV terms answers f f * dotV terms answers g g := by
      rw [mul_pow, hNa, hNb, Real.sq_sqrt hffnn, Real.sq_sqrt hggnn]
    have hDnn : 0 ≤ D :=
      dotV_nonneg terms answers f g (weight_nonneg terms answers a)
        (weight_nonneg terms answers b)
    calc D = Real.sqrt (D ^ 2) := (Real.sqrt_sq hDnn).symm
    _ ≤ Real.sqrt ((Na * Nb) ^ 2) := by
        apply Real.sqrt_le_sqrt
        rw [hNab2]
        exact hCS
    _ = Na * Nb := Real.sqrt_sq (le_of_lt hNabpos)

/-- A document with no terms has the zero weight vector. -/
theorem weight_eq_zero_of_empty (terms : String → List String)
    (answers : List String) (a : String) (ht : terms a = []) (t : String) :
    weight terms answers a t = 0 := by
  unfold weight tf
  rw [ht]
  simp

/-- The diagonal entry of a term-less document is 0, not 1: its row is the
zero vector and sklearn's normalisation leaves it zero. -/
theorem simEntry_diag_of_empty (terms : String → List String)
    (answers : List String) (a : String) (ht : terms a = []) :
    simEntry terms answers a a = 0 := by
  unfold simEntry
  have hdot : dotV terms answers (weight terms answers a) (weight terms answers a) = 0 := by
    apply Finset.sum_eq_zero
    intro t _
    rw [weight_eq_zero_of_empty terms answers a ht t]
    ring
  rw [hdot]
  simp

/-- A document of the corpus with at least one term has positive
self-dot-product. -/
theorem dot_self_pos (terms : String → List String) (answers : List String)
    (a : String) (ha : a ∈ answers) (ht : terms a ≠ []) :
    0 < dotV terms answers (weight terms answers a) (weight terms answers a) := by
  obtain ⟨t, htmem⟩ := List.exists_mem_of_ne_nil (terms a) ht
  have hvocab : t ∈ vocabOf terms answers := by
    unfold vocabOf
    rw [List.mem_toFinset, List.mem_flatten]
    exact ⟨terms a, List.mem_map_of_mem terms ha, htmem⟩
  have htf : 0 < tf terms a t := List.count_pos_iff.mpr htmem
  have hwpos : 0 < weight terms answers a t := by
    unfold weight
    apply mul_pos _ (idf_pos terms answers t)
    exact_mod_cast htf
  apply Finset.sum_pos'
  · intro u _
    exact mul_nonneg (weight_nonneg terms answers a u) (weight_nonneg terms answers a u)
  · exact ⟨t, hvocab, mul_pos hwpos hwpos⟩

/-- The diagonal entry of a document with at least one term is exactly 1. -/
theorem simEntry_diag_of_ne (terms : String → List String) (answers : List String)
    (a : String) (ha : a ∈ answers) (ht : terms a ≠ []) :
    simEntry terms answers a a = 1 := by
  unfold simEntry
  have hpos := dot_self_pos terms answers a ha ht
  rw [Real.mul_self_sqrt (le_of_lt hpos)]
  exact div_self (ne_of_gt hpos)

/-- The four structural properties of the cosine matrix of any tokenizer:
square, symmetric, entries in the unit interval, and the diagonal dichotomy
(1 for documents with terms, 0 for term-less documents). -/
theorem simCore_props (terms : String → List String) (answers : List String) :
    matrixIsSquare (simMatrixCore terms answers) answers.length ∧
    matrixSymm (simMatrixCore terms answers) ∧
    entriesIn01 (simMatrixCore terms answers) ∧
    (∀ (i : Nat) (hi : i < answers.length)
       (him : i < (simMatrixCore terms answers).length)
       (hii : i < ((simMatrixCore terms answers).get ⟨i, him⟩).length),
       (terms (answers.get ⟨i, hi⟩) ≠ [] →
          ((simMatrixCore terms answers).get ⟨i, him⟩).get ⟨i, hii⟩ = 1) ∧
       (terms (answers.get ⟨i, hi⟩) = [] →
          ((simMatrixCore terms answers).get ⟨i, him⟩).get ⟨i, hii⟩ = 0)) := by
  have hget : ∀ (i j : Nat) (him : i < (simMatrixCore terms answers).length)
      (hij : j < ((simMatrixCore terms answers).get ⟨i, him⟩).length)
      (hi : i < answers.length) (hj : j < answers.length),
      ((simMatrixCore terms answers).get ⟨i, him⟩).get ⟨j, hij⟩ =
        simEntry terms answers (answers.get ⟨i, hi⟩) (answers.get ⟨j, hj⟩) := by
    intro i j him hij hi hj
    unfold simMatrixCore
    simp [List.getElem_map]
  have hlen : (simMatrixCore terms answers).length = answers.length := by
    unfold simMatrixCore
    simp
  have hrowlen : ∀ row ∈ simMatrixCore terms answers, row.length = answers.length := by
    intro row hrow
    unfold simMatrixCore at hrow
    obtain ⟨a, _, rfl⟩ := List.mem_map.mp hrow
    simp
  refine ⟨⟨hlen, hrowlen⟩, ?_, ?_, ?_⟩
  · intro i j hi hj hj' hi'
    have hia : i < answers.length := by rw [← hlen]; exact hi
    have hja : j < answers.length := by rw [← hlen]; exact hj
    rw [hget i j hi hj' hia hja, hget j i hj hi' hja hia]
    exact simEntry_symm terms answers _ _
  · intro row hrow x hx
    unfold simMatrixCore at hrow
    obtain ⟨a, _, rfl⟩ := List.mem_map.mp hrow
    obtain ⟨b, _, rfl⟩ := List.mem_map.mp hx
    exact ⟨simEntry_nonneg terms answers a b, simEntry_le_one terms answers a b⟩
  · intro i hi him hii
    constructor
    · intro hne
      rw [hget i i him hii hi hi]
      exact simEntry_diag_of_ne terms answers _ (List.get_mem answers i hi) hne
    · intro heq
      rw [hget i i him hii hi hi]
      exact simEntry_diag_of_empty terms answers _ heq

/-- The `np.ones` fallback matrix is square, symmetric and all-ones. -/
theorem onesMat_props (n : Nat) :
    matrixIsSquare (onesMat n) n ∧ matrixSymm (onesMat n) ∧
    entriesIn01 (onesMat n) ∧
    (∀ row ∈ onesMat n, ∀ x ∈ row, x = 1) := by
  have hentry : ∀ row ∈ onesMat n, ∀ x ∈ row, x = (1 : ℝ) := by
    intro row hrow x hx
    have hrow' := (List.eq_of_mem_replicate hrow)
    subst hrow'
    exact List.eq_of_mem_replicate hx
  refine ⟨⟨by simp [onesMat], ?_⟩, ?_, ?_, hentry⟩
  · intro row hrow
    rw [List.eq_of_mem_replicate hrow]
    simp
  · intro i j hi hj hj' hi'
    have h1 := hentry _ (List.get_mem _ i hi) _ (List.get_mem _ j hj')
    have h2 := hentry _ (List.get_mem _ j hj) _ (List.get_mem _ i hi')
    rw [h1, h2]
  · intro row hrow x hx
    rw [hentry row hrow x hx]
    norm_num

/-- v1's matrix function succeeds exactly on a non-empty vocabulary, with
the cosine matrix as value. -/
theorem simMatrixV1_ok (answers : List String) (M : List (List ℝ))
    (h : simMatrixV1 answers = .ok M) :
    vocabOf sklearnTerms answers ≠ ∅ ∧ M = simMatrixCore sklearnTerms answers := by
  unfold simMatrixV1 at h
  split at h
  · cases h
  · cases h
    exact ⟨by assumption, rfl⟩

end Scorer

/-! ## Claim theorems -/

/-- C1 counterexample: `run_multiple_tools` drops requested providers beyond
`max_parallel_tools`.  With two enabled, always-succeeding providers
requested under a parallel limit of 1, the returned list has one entry, not
one per requested tool name. -/
theorem claim_C1_counterexample :
    (ToolMgr.runMultipleTools
        { enabledTools := ["a", "b"], proc := fun _ _ => .exited 0 "ans" "" } {}
        (fun _ => true) 1 ["a", "b"]).map List.length = Except.ok 1 ∧
    (1 : Nat) ≠ 2 :=
  ⟨rfl, by decide⟩

/-- C1 (amended): with the retry policy enabled, `run_multiple_tools` raises
no exception and returns exactly one terminal `ToolResult`, carrying the
requested name, for each name actually run — namely the requested names (or
all enabled tools when none are given) truncated to `max_parallel_tools`;
names beyond that limit are dropped. -/
theorem claim_C1_amended (env : ToolMgr.ToolEnv) (cfg : RetryConfig)
    (ask : Nat → Bool) (maxParallel : Nat) (toolNames : List String)
    (hcfg : cfg.enabled = true) :
    ∃ rs, ToolMgr.runMultipleTools env cfg ask maxParallel toolNames = .ok rs ∧
      rs.map ToolMgr.ToolResult.toolName =
        (if toolNames.isEmpty then env.enabledTools else toolNames).take maxParallel := by
  unfold ToolMgr.runMultipleTools
  exact ToolMgr.gather_runTool env cfg ask hcfg _

/-- C1 witness: two providers requested under a parallel limit of 5 give
one result per requested name, in order. -/
theorem claim_C1_witness :
    ∃ rs, ToolMgr.runMultipleTools
        { enabledTools := ["a", "b"], proc := fun _ _ => .exited 0 "ans" "" } {}
        (fun _ => true) 5 ["a", "b"] = .ok rs ∧
      rs.map ToolMgr.ToolResult.toolName =
        (if (["a", "b"] : List String).isEmpty then ["a", "b"] else ["a", "b"]).take 5 :=
  claim_C1_amended
    { enabledTools := ["a", "b"], proc := fun _ _ => .exited 0 "ans" "" } {}
    (fun _ => true) 5 ["a", "b"] rfl

/-- C2 counterexample: neither analyzer sets the diagonal to 1.0.  For the
successful batch with answers `"the"` (all stop words) and `"hello"`, v1's
similarity matrix has diagonal entry 0 at index 0, because that answer's
tf-idf row is the zero vector. -/
theorem claim_C2_counterexample :
    Scorer.simMatrixV1 ["the", "hello"] =
      .ok (Scorer.simMatrixCore Scorer.sklearnTerms ["the", "hello"]) ∧
    ((Scorer.simMatrixCore Scorer.sklearnTerms ["the", "hello"]).getD 0 []).getD 0 1 = 0 ∧
    ((0 : ℝ) ≠ 1) := by
  refine ⟨?_, ?_, by norm_num⟩
  · unfold Scorer.simMatrixV1
    rw [if_neg (by decide)]
  · have hterms : Scorer.sklearnTerms "the" = [] := by decide
    have hred : ((Scorer.simMatrixCore Scorer.sklearnTerms ["the", "hello"]).getD 0 []).getD 0 1 =
        Scorer.simEntry Scorer.sklearnTerms ["the", "hello"] "the" "the" := by
      simp [Scorer.simMatrixCore]
    rw [hred]
    exact Scorer.simEntry_diag_of_empty Scorer.sklearnTerms ["the", "hello"] "the" hterms

/-- C2 (amended): for every batch of two or more successful results, the
similarity matrix of either analyzer is square with side the successful
count, symmetric, with every entry in `[0, 1]`; a diagonal entry is exactly
1.0 whenever the corresponding answer contributes at least one vocabulary
term, but exactly 0.0 when its processed answer has no terms (no diagonal
filling exists).  V1 instead raises when the whole corpus has no terms,
while V2 then returns the all-ones matrix. -/
theorem claim_C2_amended :
    (∀ (answers : List String) (M : List (List ℝ)), 2 ≤ answers.length →
       Scorer.simMatrixV1 answers = .ok M →
       Scorer.matrixIsSquare M answers.length ∧ Scorer.matrixSymm M ∧
       Scorer.entriesIn01 M ∧
       (∀ (i : Nat) (hi : i < answers.length) (him : i < M.length)
          (hii : i < (M.get ⟨i, him⟩).length),
          (Scorer.sklearnTerms (answers.get ⟨i, hi⟩) ≠ [] →
             (M.get ⟨i, him⟩).get ⟨i, hii⟩ = 1) ∧
          (Scorer.sklearnTerms (answers.get ⟨i, hi⟩) = [] →
             (M.get ⟨i, him⟩).get ⟨i, hii⟩ = 0))) ∧
    (∀ answers : List String, 2 ≤ answers.length →
       Scorer.matrixIsSquare (Scorer.simMatrixV2 answers) answers.length ∧
       Scorer.matrixSymm (Scorer.simMatrixV2 answers) ∧
       Scorer.entriesIn01 (Scorer.simMatrixV2 answers) ∧
       (Scorer.vocabOf Scorer.v2TermsOfText answers ≠ ∅ →
          ∀ (i : Nat) (hi : i < answers.length)
            (him : i < (Scorer.simMatrixV2 answers).length)
            (hii : i < ((Scorer.simMatrixV2 answers).get ⟨i, him⟩).length),
            (Scorer.v2TermsOfText (answers.get ⟨i, hi⟩) ≠ [] →
               ((Scorer.simMatrixV2 answers).get ⟨i, him⟩).get ⟨i, hii⟩ = 1) ∧
            (Scorer.v2TermsOfText (answers.get ⟨i, hi⟩) = [] →
               ((Scorer.simMatrixV2 answers).get ⟨i, him⟩).get ⟨i, hii⟩ = 0)) ∧
       (Scorer.vocabOf Scorer.v2TermsOfText answers = ∅ →
          ∀ row ∈ Scorer.simMatrixV2 answers, ∀ x ∈ row, x = 1)) := by
  constructor
  · intro answers M _ hok
    obtain ⟨_, rfl⟩ := Scorer.simMatrixV1_ok answers M hok
    obtain ⟨hsq, hsymm, h01, hdiag⟩ := Scorer.simCore_props Scorer.sklearnTerms answers
    exact ⟨hsq, hsymm, h01, hdiag⟩
  · intro answers _
    by_cases hvoc : Scorer.vocabOf Scorer.v2TermsOfText answers = ∅
    · have hM : Scorer.simMatrixV2 answers = Scorer.onesMat answers.length := by
        unfold Scorer.simMatrixV2
        rw [if_pos hvoc]
      obtain ⟨hsq, hsymm, h01, hone⟩ := Scorer.onesMat_props answers.length
      rw [hM]
      exact ⟨hsq, hsymm, h01, fun hne => absurd hvoc hne, fun _ => hone⟩
    · have hM : Scorer.simMatrixV2 answers =
          Scorer.simMatrixCore Scorer.v2TermsOfText answers := by
        unfold Scorer.simMatrixV2
        rw [if_neg hvoc]
      obtain ⟨hsq, hsymm, h01, hdiag⟩ := Scorer.simCore_props Scorer.v2TermsOfText answers
      rw [hM]
      exact ⟨hsq, hsymm, h01, fun _ => hdiag, fun h => absurd h hvoc⟩

/-- C2 witness: for the two-answer batch `["hello world", "hello python"]`
the v1 matrix (whose vocabulary is non-empty, so `fit_transform` succeeds)
has all four properties, and the v2 matrix is square of side 2. -/
theorem claim_C2_witness :
    (Scorer.matrixIsSquare
        (Scorer.simMatrixCore Scorer.sklearnTerms ["hello world", "hello python"]) 2 ∧
      Scorer.matrixSymm
        (Scorer.simMatrixCore Scorer.sklearnTerms ["hello world", "hello python"]) ∧
      Scorer.entriesIn01
        (Scorer.simMatrixCore Scorer.sklearnTerms ["hello world", "hello python"]) ∧
      (∀ (i : Nat) (hi : i < (["hello world", "hello python"] : List String).length)
        (him : i < (Scorer.simMatrixCore Scorer.sklearnTerms
            ["hello world", "hello python"]).length)
        (hii : i < ((Scorer.simMatrixCore Scorer.sklearnTerms
            ["hello world", "hello python"]).get ⟨i, him⟩).length),
        (Scorer.sklearnTerms ((["hello world", "hello python"] : List String).get ⟨i, hi⟩) ≠ [] →
          ((Scorer.simMatrixCore Scorer.sklearnTerms
              ["hello world", "hello python"]).get ⟨i, him⟩).get ⟨i, hii⟩ = 1) ∧
        (Scorer.sklearnTerms ((["hello world", "hello python"] : List String).get ⟨i, hi⟩) = [] →
          ((Scorer.simMatrixCore Scorer.sklearnTerms
              ["hello world", "hello python"]).get ⟨i, him⟩).get ⟨i, hii⟩ = 0))) ∧
    Scorer.matrixIsSquare (Scorer.simMatrixV2 ["hello world", "hello python"]) 2 := by
  constructor
  · have hok : Scorer.simMatrixV1 ["hello world", "hello python"] =
        .ok (Scorer.simMatrixCore Scorer.sklearnTerms ["hello world", "hello python"]) := by
      unfold Scorer.simMatrixV1
      rw [if_neg (by decide)]
    exact claim_C2_amended.1 ["hello world", "hello python"] _ (by norm_num) hok
  · exact (claim_C2_amended.2 ["hello world", "hello python"] (by norm_num)).1

/-- C3: key-point extraction and difference identification are total on any
generative response.  An empty response and any response whose normalised
form fails JSON parsing fall back to the deterministic word-frequency
extractor (key points) and the empty list (differences); a response parsing
to a JSON value is returned as is; and every fallback key point is a word
attributed exactly to the tools whose preprocessed answer contains it. -/
theorem claim_C3 (results : List AnalyzerV1.RDict) (resp : String) :
    (PyStr.pyStrip resp = "" →
        AnalyzerV1.extractKeyPoints resp results = AnalyzerV1.simpleKeyPointExtraction results ∧
        AnalyzerV1.identifyDifferences resp = Json.arr []) ∧
    (PyJson.jsonLoads (AnalyzerV1.normalizeResponse resp) = none →
        AnalyzerV1.extractKeyPoints resp results = AnalyzerV1.simpleKeyPointExtraction results ∧
        AnalyzerV1.identifyDifferences resp = Json.arr []) ∧
    (∀ v : Json, PyStr.pyStrip resp ≠ "" → AnalyzerV1.normalizeResponse resp ≠ "" →
        PyJson.jsonLoads (AnalyzerV1.normalizeResponse resp) = some v →
        AnalyzerV1.extractKeyPoints resp results = v ∧
        AnalyzerV1.identifyDifferences resp = v) ∧
    (∀ points : List Json, AnalyzerV1.simpleKeyPointExtraction results = Json.arr points →
        ∀ p ∈ points, ∃ w : String,
          p = Json.obj
            [("content", Json.str w),
             ("sources", Json.arr ((results.filter
                (fun r => (AnalyzerV1.preprocessText r.answer).contains w)).map
                (fun r => Json.str r.toolName)))]) := by
  refine ⟨?_, ?_, ?_, ?_⟩
  · intro h
    constructor <;> simp [AnalyzerV1.extractKeyPoints, AnalyzerV1.identifyDifferences, h]
  · intro h
    by_cases h1 : PyStr.pyStrip resp = ""
    · constructor <;> simp [AnalyzerV1.extractKeyPoints, AnalyzerV1.identifyDifferences, h1]
    · by_cases h2 : AnalyzerV1.normalizeResponse resp = ""
      · constructor <;>
          simp [AnalyzerV1.extractKeyPoints, AnalyzerV1.identifyDifferences, h1, h2]
      · constructor <;>
          simp [AnalyzerV1.extractKeyPoints, AnalyzerV1.identifyDifferences, h1, h2, h]
  · intro v h1 h2 h3
    constructor <;>
      simp [AnalyzerV1.extractKeyPoints, AnalyzerV1.identifyDifferences, h1, h2, h3]
  · intro points h p hp
    unfold AnalyzerV1.simpleKeyPointExtraction at h
    rw [Json.arr.injEq] at h
    rw [← h] at hp
    obtain ⟨w, hw, hpw⟩ := List.mem_map.mp hp
    exact ⟨w, hpw.symm⟩

/-- C3 witness: for a concrete two-tool batch, the empty response and the
string `"not json"` both yield the deterministic fallback (and no
differences), while a well-formed JSON array is returned as parsed. -/
theorem claim_C3_witness :
    (AnalyzerV1.extractKeyPoints ""
        [{ toolName := "a", success := true, answer := "hello hello world" },
         { toolName := "b", success := true, answer := "hello" }] =
      AnalyzerV1.simpleKeyPointExtraction
        [{ toolName := "a", success := true, answer := "hello hello world" },
         { toolName := "b", success := true, answer := "hello" }] ∧
      AnalyzerV1.identifyDifferences "" = Json.arr []) ∧
    (AnalyzerV1.extractKeyPoints "not json"
        [{ toolName := "a", success := true, answer := "hello hello world" },
         { toolName := "b", success := true, answer := "hello" }] =
      AnalyzerV1.simpleKeyPointExtraction
        [{ toolName := "a", success := true, answer := "hello hello world" },
         { toolName := "b", success := true, answer := "hello" }] ∧
      AnalyzerV1.identifyDifferences "not json" = Json.arr []) ∧
    (AnalyzerV1.extractKeyPoints "[\x7b\"content\": \"x\", \"sources\": [\"a\"]\x7d]"
        [{ toolName := "a", success := true, answer := "hello hello world" },
         { toolName := "b", success := true, answer := "hello" }] =
      Json.arr [Json.obj [("content", Json.str "x"), ("sources", Json.arr [Json.str "a"])]] ∧
      AnalyzerV1.identifyDifferences "[\x7b\"content\": \"x\", \"sources\": [\"a\"]\x7d]" =
        Json.arr [Json.obj [("content", Json.str "x"), ("sources", Json.arr [Json.str "a"])]]) := by
  refine ⟨?_, ?_, ?_⟩
  · exact (claim_C3 _ "").1 rfl
  · exact (claim_C3 _ "not json").2.1 rfl
  · exact (claim_C3 _ "[\x7b\"content\": \"x\", \"sources\": [\"a\"]\x7d]").2.2.1
      (Json.arr [Json.obj [("content", Json.str "x"), ("sources", Json.arr [Json.str "a"])]])
      (by decide) (by decide) rfl

/-- C4: if the body of one unit-of-work scope stages the ProviderResult
batch and then raises before the ConsensusAnalysis insert (or the batch
itself raises a validation error mid-way), the exception propagates, the
scope rolls back, and afterwards the durable store is unchanged and nothing
remains staged — no partial commit. -/
theorem claim_C4 (conn : Persist.DbConn) (results : List Persist.ToolResultE)
    (e : String) :
    (Persist.runScope conn (Persist.c4Body results e)).2.isSome = true ∧
    (Persist.runScope conn (Persist.c4Body results e)).1.durable = conn.durable ∧
    (Persist.runScope conn (Persist.c4Body results e)).1.staged = [] := by
  unfold Persist.runScope Persist.c4Body
  obtain ⟨hd, hc, hr⟩ := Persist.addBatch_frame results { conn := conn }
  obtain ⟨u', exc, hb⟩ :
      ∃ u' exc, Persist.toolResultAddBatch { conn := conn } results = (u', exc) :=
    ⟨_, _, rfl⟩
  dsimp only
  rw [hb] at hd hc hr ⊢
  dsimp only at hd hc hr
  cases exc <;>
    simp [Persist.aexit, Persist.rollback, Persist.connRollback, hc, hd]

/-- C5 counterexample: with the disabled-retry configuration — explicitly
covered by the claim — an exception raised by the operation propagates out
of the tools `execute_with_retry` instead of being returned as a failure
result, because the single execution happens outside any `try`. -/
theorem claim_C5_counterexample :
    ToolsRetry.executeWithRetry { enabled := false }
      (fun _ => (PyOutcome.exn "boom" : PyOutcome Nat)) (fun _ => true) =
      Except.error "boom" := rfl

/-- C5 (amended): the tools `execute_with_retry` returns a result object and
never propagates an exception when the policy is enabled (success carries a
value, failure carries none); when the policy is disabled it executes the
operation exactly once, returning a success result on a normal return but
propagating the operation's exception; and the data `execute_with_retry`
re-raises the last exception after exhausting its executions. -/
theorem claim_C5_amended :
    (∀ (α : Type) (cfg : RetryConfig) (op : Nat → PyOutcome α) (ask : Nat → Bool),
       cfg.enabled = true →
       ∃ r : RetryResult α, ToolsRetry.executeWithRetry cfg op ask = .ok r ∧
         (r.success = true → ∃ n v, op n = PyOutcome.ok v ∧ r.value = some v) ∧
         (r.success = false → r.value = none)) ∧
    (∀ (α : Type) (cfg : RetryConfig) (op : Nat → PyOutcome α) (ask : Nat → Bool),
       cfg.enabled = false →
         (∀ v, op 1 = PyOutcome.ok v →
            ToolsRetry.executeWithRetry cfg op ask =
              .ok { success := true, attempts := 1, value := some v, error := none }) ∧
         (∀ m, op 1 = PyOutcome.exn m →
            ToolsRetry.executeWithRetry cfg op ask = .error m) ∧
         (∀ m, op 1 = PyOutcome.timeoutExn m →
            ToolsRetry.executeWithRetry cfg op ask = .error m)) ∧
    (∀ (α : Type) (maxRetries : Nat) (op : Nat → Except String α) (f : Nat → String),
       (∀ n, op n = .error (f n)) →
       DataRetry.executeWithRetry maxRetries op = .error (f maxRetries)) := by
  refine ⟨?_, ?_, ?_⟩
  · intro α cfg op ask hcfg
    exact ToolsRetry.executeWithRetry_enabled_ok cfg op ask hcfg
  · intro α cfg op ask hcfg
    refine ⟨?_, ?_, ?_⟩
    · intro v hv
      simp [ToolsRetry.executeWithRetry, hcfg, hv]
    · intro m hm
      simp [ToolsRetry.executeWithRetry, hcfg, hm]
    · intro m hm
      simp [ToolsRetry.executeWithRetry, hcfg, hm]
  · intro α maxRetries op f hop
    exact DataRetry.executeWithRetry_exhaust maxRetries op f hop

/-- C5 witness: an always-failing operation under the enabled policy yields
a result object; a succeeding operation under the disabled policy executes
once; an always-failing operation exhausts the data handler, which raises. -/
theorem claim_C5_witness :
    (∃ r : RetryResult Nat,
        ToolsRetry.executeWithRetry { enabled := true }
          (fun _ => PyOutcome.exn "boom") (fun _ => true) = .ok r ∧
        (r.success = true →
          ∃ n v, (fun _ => PyOutcome.exn "boom" : Nat → PyOutcome Nat) n = PyOutcome.ok v ∧
            r.value = some v) ∧
        (r.success = false → r.value = none)) ∧
    ToolsRetry.executeWithRetry { enabled := false }
      (fun _ => (PyOutcome.ok 7 : PyOutcome Nat)) (fun _ => true) =
      .ok { success := true, attempts := 1, value := some 7, error := none } ∧
    DataRetry.executeWithRetry 2 (fun _ => (Except.error "e" : Except String Nat)) =
      Except.error "e" := by
  refine ⟨?_, ?_, ?_⟩
  · exact claim_C5_amended.1 Nat { enabled := true }
      (fun _ => PyOutcome.exn "boom") (fun _ => true) rfl
  · exact (claim_C5_amended.2.1 Nat { enabled := false }
      (fun _ => PyOutcome.ok 7) (fun _ => true) rfl).1 7 rfl
  · exact claim_C5_amended.2.2 Nat 2
      (fun _ => Except.error "e") (fun _ => "e") (fun _ => rfl)

/-- C6: with `max_retries = 3` (the configured maximum of attempts) in the
tools retry handler, an operation failing twice then succeeding reports
success with `attempts = 3`, and an always-failing operation reports
failure with `attempts = 3`, i.e. capped at the configured maximum, carrying
the last error. -/
theorem claim_C6 (cfg : RetryConfig) (hen : cfg.enabled = true)
    (hauto : cfg.autoRetry = true) (herr : cfg.retryOnError = true)
    (hmax : cfg.maxRetries = 3) {α : Type} (ask : Nat → Bool) :
    (∀ (op : Nat → PyOutcome α) (m1 m2 : String) (v : α),
       op 1 = .exn m1 → op 2 = .exn m2 → op 3 = .ok v →
       ToolsRetry.executeWithRetry cfg op ask =
         .ok { success := true, attempts := 3, value := some v, error := none }) ∧
    (∀ (op : Nat → PyOutcome α) (f : Nat → String), (∀ n, op n = .exn (f n)) →
       ToolsRetry.executeWithRetry cfg op ask =
         .ok { success := false, attempts := 3, value := none,
               error := some ("执行错误: " ++ f 3) }) := by
  have e3 : cfg.maxRetries = 2 + 1 := by omega
  constructor
  · intro op m1 m2 v h1 h2 h3
    simp only [ToolsRetry.executeWithRetry, hen, Bool.not_true, Bool.false_eq_true,
      if_false, e3]
    simp only [ToolsRetry.go, Nat.zero_add, h1, herr, hauto, hmax]
    norm_num
    simp only [ToolsRetry.go, h2, herr, hauto, hmax]
    simp only [ToolsRetry.go, h3]
  · intro op f hop
    simp only [ToolsRetry.executeWithRetry, hen, Bool.not_true, Bool.false_eq_true,
      if_false, e3]
    simp only [ToolsRetry.go, Nat.zero_add, hop 1, herr, hauto, hmax]
    norm_num
    simp only [ToolsRetry.go, hop 2, hop 3, herr, hauto, hmax]

/-- C6 witness: with the default configuration (`max_retries = 3`), an
operation failing twice then returning 42 reports success with three
attempts, and an always-failing operation reports failure with three
attempts and the last error. -/
theorem claim_C6_witness :
    ToolsRetry.executeWithRetry {}
      (fun n => if n ≤ 2 then PyOutcome.exn "boom" else PyOutcome.ok 42)
      (fun _ => true) =
      .ok { success := true, attempts := 3, value := some 42, error := none } ∧
    ToolsRetry.executeWithRetry {} (fun _ => (PyOutcome.exn "boom" : PyOutcome Nat))
      (fun _ => true) =
      .ok { success := false, attempts := 3, value := none,
            error := some ("执行错误: " ++ "boom") } := by
  constructor
  · exact (claim_C6 {} rfl rfl rfl rfl (fun _ => true)).1
      (fun n => if n ≤ 2 then PyOutcome.exn "boom" else PyOutcome.ok 42)
      "boom" "boom" 42 rfl rfl rfl
  · exact (claim_C6 {} rfl rfl rfl rfl (fun _ => true)).2
      (fun _ => PyOutcome.exn "boom") (fun _ => "boom") (fun _ => rfl)

/-- C7 counterexample: v1's `analyze_consensus` raises `ValueError` on a
batch with zero successful results instead of returning a degenerate
result. -/
theorem claim_C7_counterexample :
    Analyzer.v1AnalyzeConsensus 1 none none none none
      [{ toolName := "a", success := false, answer := "" }] =
      Except.error "没有成功的工具结果可分析" := by
  rfl

/-- C7 (amended): for every batch with fewer than 2 successful results, v2's
`analyze_consensus` returns — without raising — the fixed degenerate result
(similarity matrix `[[1.0]]`, empty score map); v1's `analyze_consensus`
instead raises `ValueError` when there are zero successful results. -/
theorem claim_C7_amended :
    (∀ (sessionId : Int) (question : String) (toolResults : List AnalyzerV1.RDict),
       (toolResults.filter (fun r => r.success)).length < 2 →
       Analyzer.v2AnalyzeConsensus sessionId question toolResults =
         .ok (Analyzer.v2DefaultResult sessionId)) ∧
    (∀ sessionId : Int,
       (Analyzer.v2DefaultResult sessionId).similarityMatrix = [[1]] ∧
       (Analyzer.v2DefaultResult sessionId).consensusScores = []) ∧
    (∀ (sessionId : Int) (kp df sm cn : Option String)
       (toolResults : List AnalyzerV1.RDict),
       toolResults.filter (fun r => r.success) = [] →
       Analyzer.v1AnalyzeConsensus sessionId kp df sm cn toolResults =
         Except.error "没有成功的工具结果可分析") := by
  refine ⟨?_, fun _ => ⟨rfl, rfl⟩, ?_⟩
  · intro sessionId question toolResults h
    simp [Analyzer.v2AnalyzeConsensus, h]
  · intro sessionId kp df sm cn toolResults h
    simp [Analyzer.v1AnalyzeConsensus, h]

/-- C7 witness: a single-success batch gives v2's fixed degenerate result,
and the empty batch makes v1 raise. -/
theorem claim_C7_witness :
    Analyzer.v2AnalyzeConsensus 1 "q"
      [{ toolName := "a", success := true, answer := "x" }] =
      .ok (Analyzer.v2DefaultResult 1) ∧
    Analyzer.v1AnalyzeConsensus 1 none none none none [] =
      Except.error "没有成功的工具结果可分析" := by
  constructor
  · exact claim_C7_amended.1 1 "q"
      [{ toolName := "a", success := true, answer := "x" }] (by decide)
  · exact claim_C7_amended.2.2 1 none none none none [] rfl

/-- C8 counterexample: v2's consensus score is the raw row mean, not the
claimed `round(mean * 100, 2)`.  For the identity 2×2 matrix the row mean is
0.5, so the claim demands the score 50, but v2 stores 0.5. -/
theorem claim_C8_counterexample :
    Scorer.v2ConsensusScores
      [{ toolName := "a", success := true, answer := "x" },
       { toolName := "b", success := true, answer := "y" }]
      [[1, 0], [0, 1]] =
      [("a", Scorer.rowMean [1, 0]), ("b", Scorer.rowMean [0, 1])] ∧
    Scorer.rowMean [1, 0] = 1/2 ∧
    Scorer.pyRound2 (Scorer.rowMean [1, 0] * 100) = 50 ∧
    ((1 : ℝ)/2) ≠ 50 := by
  have hmean : Scorer.rowMean [1, 0] = 1/2 := by
    simp [Scorer.rowMean]
  refine ⟨?_, hmean, ?_, by norm_num⟩
  · rw [Scorer.v2Scores_eq _ _ rfl (by decide)]
    rfl
  · have h50 : Scorer.rowMean [1, 0] * 100 = 50 := by rw [hmean]; norm_num
    rw [h50]
    have hcast : (50 * 100 : ℝ) = ((5000 : ℤ) : ℝ) := by norm_num
    have hfloor : ⌊(50 * 100 : ℝ)⌋ = 5000 := by rw [hcast, Int.floor_intCast]
    unfold Scorer.pyRound2 Scorer.pyRoundHalfEven
    rw [hfloor]
    rw [if_pos (by push_cast; norm_num)]
    push_cast
    norm_num

/-- C8 (amended): for distinct tool names and a matrix with one row per
successful result, v1's score map assigns each provider
`round(rowMean * 100, 2)` while v2's assigns the raw row mean; and for rows
of unit-interval entries the v1 score lies in `[0, 100]` and the v2 score in
`[0, 1]`. -/
theorem claim_C8_amended :
    (∀ (results : List AnalyzerV1.RDict) (matrix : List (List ℝ)),
       results.length = matrix.length →
       (results.map AnalyzerV1.RDict.toolName).Nodup →
       Scorer.v1ConsensusScores results matrix =
         (results.zip matrix).map
           (fun pr => (pr.1.toolName, Scorer.pyRound2 (Scorer.rowMean pr.2 * 100))) ∧
       Scorer.v2ConsensusScores results matrix =
         (results.zip matrix).map (fun pr => (pr.1.toolName, Scorer.rowMean pr.2))) ∧
    (∀ row : List ℝ, row ≠ [] → (∀ x ∈ row, 0 ≤ x ∧ x ≤ 1) →
       (0 ≤ Scorer.pyRound2 (Scorer.rowMean row * 100) ∧
        Scorer.pyRound2 (Scorer.rowMean row * 100) ≤ 100) ∧
       (0 ≤ Scorer.rowMean row ∧ Scorer.rowMean row ≤ 1)) := by
  constructor
  · intro results matrix hlen hnd
    exact ⟨Scorer.v1Scores_eq results matrix hlen hnd,
           Scorer.v2Scores_eq results matrix hlen hnd⟩
  · intro row hne hb
    obtain ⟨hm0, hm1⟩ := Scorer.rowMean_bounds row hne hb
    refine ⟨Scorer.pyRound2_bounds _ (by linarith) (by linarith), hm0, hm1⟩

/-- C8 witness: the two score maps at the identity 2×2 matrix, and the score
bounds at the row `[1, 0]`. -/
theorem claim_C8_witness :
    (Scorer.v1ConsensusScores
        [{ toolName := "a", success := true, answer := "x" },
         { toolName := "b", success := true, answer := "y" }]
        [[1, 0], [0, 1]] =
      (([{ toolName := "a", success := true, answer := "x" },
          { toolName := "b", success := true, answer := "y" }] :
            List AnalyzerV1.RDict).zip [[(1 : ℝ), 0], [0, 1]]).map
        (fun pr => (pr.1.toolName, Scorer.pyRound2 (Scorer.rowMean pr.2 * 100))) ∧
      Scorer.v2ConsensusScores
        [{ toolName := "a", success := true, answer := "x" },
         { toolName := "b", success := true, answer := "y" }]
        [[1, 0], [0, 1]] =
      (([{ toolName := "a", success := true, answer := "x" },
          { toolName := "b", success := true, answer := "y" }] :
            List AnalyzerV1.RDict).zip [[(1 : ℝ), 0], [0, 1]]).map
        (fun pr => (pr.1.toolName, Scorer.rowMean pr.2))) ∧
    ((0 ≤ Scorer.pyRound2 (Scorer.rowMean [(1 : ℝ), 0] * 100) ∧
      Scorer.pyRound2 (Scorer.rowMean [(1 : ℝ), 0] * 100) ≤ 100) ∧
     (0 ≤ Scorer.rowMean [(1 : ℝ), 0] ∧ Scorer.rowMean [(1 : ℝ), 0] ≤ 1)) := by
  constructor
  · exact claim_C8_amended.1
      [{ toolName := "a", success := true, answer := "x" },
       { toolName := "b", success := true, answer := "y" }]
      [[1, 0], [0, 1]] rfl (by decide)
  · exact claim_C8_amended.2 [1, 0] (by simp)
      (by
        intro x hx
        rcases List.mem_cons.mp hx with rfl | hx'
        · norm_num
        · rcases List.mem_cons.mp hx' with rfl | hx''
          · norm_num
          · cases hx'')

/-- C9: the invoker's success path violates the data-model invariant that
the repository's own validator enforces.  A provider that exits 0 with
empty standard output yields `success = true` with an empty answer, which
`DataValidator.validate_tool_result` would reject. -/
theorem claim_C9_code_bug :
    ToolMgr.runTool
      { enabledTools := ["t"], proc := fun _ _ => .exited 0 "" "diag" } {}
      (fun _ => true) "t" =
      .ok { toolName := "t", success := true, answer := "", errorMessage := "" } ∧
    ¬ ToolMgr.toolResultInvariant
      { toolName := "t", success := true, answer := "", errorMessage := "" } :=
  ⟨rfl, by decide⟩

/-- C10: closing calls of one unit-of-work scope are mutually exclusive and
idempotent in effect: after an effective `commit`, `rollback` is the
identity and a second `commit` leaves the connection unchanged; after an
effective `rollback`, `commit` is the identity and a second `rollback`
leaves the connection unchanged. -/
theorem claim_C10 (u : Persist.UnitOfWork) :
    (u.rolledBack = false →
       Persist.rollback (Persist.commit u) = Persist.commit u ∧
       (Persist.commit (Persist.commit u)).conn = (Persist.commit u).conn) ∧
    (u.committed = false →
       Persist.commit (Persist.rollback u) = Persist.rollback u ∧
       (Persist.rollback (Persist.rollback u)).conn = (Persist.rollback u).conn) := by
  constructor
  · intro h
    simp [Persist.commit, Persist.rollback, Persist.connCommit, Persist.connRollback, h]
  · intro h
    simp [Persist.commit, Persist.rollback, Persist.connCommit, Persist.connRollback, h]

/-- C10 witness: on a fresh scope with one staged row, commit-then-rollback
keeps the committed state and rollback-then-commit keeps the rolled-back
state. -/
theorem claim_C10_witness :
    (Persist.rollback (Persist.commit
        { conn := { durable := [],
                    staged := [Persist.DbRow.sessionRow { originalQuestion := "q" }] } }) =
      Persist.commit
        { conn := { durable := [],
                    staged := [Persist.DbRow.sessionRow { originalQuestion := "q" }] } } ∧
      (Persist.commit (Persist.commit
        { conn := { durable := [],
                    staged := [Persist.DbRow.sessionRow { originalQuestion := "q" }] } })).conn =
      (Persist.commit
        { conn := { durable := [],
                    staged := [Persist.DbRow.sessionRow { originalQuestion := "q" }] } }).conn) ∧
    (Persist.commit (Persist.rollback
        { conn := { durable := [],
                    staged := [Persist.DbRow.sessionRow { originalQuestion := "q" }] } }) =
      Persist.rollback
        { conn := { durable := [],
                    staged := [Persist.DbRow.sessionRow { originalQuestion := "q" }] } } ∧
      (Persist.rollback (Persist.rollback
        { conn := { durable := [],
                    staged := [Persist.DbRow.sessionRow { originalQuestion := "q" }] } })).conn =
      (Persist.rollback
        { conn := { durable := [],
                    staged := [Persist.DbRow.sessionRow { originalQuestion := "q" }] } }).conn) := by
  constructor
  · exact (claim_C10 _).1 rfl
  · exact (claim_C10 _).2 rfl
